import Mathlib

/-!
Verification development for the MARILib pico-design core
(src/network/pico_design/design_model.py and
src/aircraft/airframe/power_and_system.py).

Python floats are modelled as real numbers; raised exceptions are modelled
with an explicit error type threaded through `Except`; object mutation is
modelled by explicit state passing on a record type.  The external
root-finder (scipy.optimize.fsolve) is modelled as an oracle recording one
run: the points at which it evaluated the residual callback, the returned
solution vector and the integer info flag (flag = 1 means converged).
-/

noncomputable section

/-- Errors a call can raise.  The Python source raises bare
`Exception("Convergence problem")` and
`Exception("atmosphere, altitude cannot exceed 50km")`, which carry only a
constant message string, so they are modelled as nullary constructors;
`indexError` models numpy's IndexError on an out-of-bounds array access. -/
inductive PyError where
  | convergenceProblem
  | atmosphereAltitudeLimit
  | indexError
deriving DecidableEq

/- ------------------------------------------------------------------ -/
/- Standard atmosphere (design_model.py, Aircraft.atmosphere)          -/
/- ------------------------------------------------------------------ -/

/-- The altitude-band table `Z` of `Aircraft.atmosphere` (length 6). -/
def atmZ : List ℝ := [0, 11000, 20000, 32000, 47000, 50000]

/-- The lapse-rate table `dtodz` of `Aircraft.atmosphere` (length 5). -/
def atmDtodz : List ℝ := [-0.0065, 0, 0.0010, 0.0028, 0]

/-- Initial pressure array `P` of `Aircraft.atmosphere`. -/
def atmP0 : List ℝ := [101325, 0, 0, 0, 0, 0]

/-- Initial temperature array `T` of `Aircraft.atmosphere`. -/
def atmT0 : List ℝ := [288.15, 0, 0, 0, 0, 0]

/-- The while loop of `Aircraft.atmosphere`:
`while Z[1+j] <= altp: T[j+1] = ...; P[j+1] = ...; j += 1`.
Every array read is through `List.get?`; a `none` is numpy's IndexError.
The first argument is recursion fuel; the loop advances `j` by one each
iteration and errors as soon as `1 + j` reaches the table length, so with
fuel 8 the fuel-exhaustion branch is never taken for the length-6 tables. -/
def atmLoop (altp g r : ℝ) : ℕ → ℕ → List ℝ → List ℝ →
    Except PyError (ℕ × List ℝ × List ℝ)
  | 0, _, _, _ => Except.error PyError.indexError
  | fuel + 1, j, P, T =>
    match atmZ.get? (1 + j) with
    | none => Except.error PyError.indexError
    | some z1 =>
      if z1 ≤ altp then
        match atmZ.get? j, atmDtodz.get? j, T.get? j, P.get? j with
        | some zj, some dj, some tj, some pj =>
          let t1 := tj + dj * (z1 - zj)
          let p1 :=
            if 0 < |dj| then
              pj * (1 + (dj / tj) * (z1 - zj)) ^ (-g / (r * dj))
            else
              pj * Real.exp (-(g / r) * ((z1 - zj) / tj))
          atmLoop altp g r fuel (j + 1) (P.set (j + 1) p1) (T.set (j + 1) t1)
        | _, _, _, _ => Except.error PyError.indexError
      else Except.ok (j, P, T)

/-- `Aircraft.atmosphere(altp, disa)` (design_model.py, lines 203-233).
The `self` parameter is unused by the source method, so it is a plain
function.  Returns `(pamb, tamb, vsnd, g)`. -/
def atmosphere (altp disa : ℝ) : Except PyError (ℝ × ℝ × ℝ × ℝ) :=
  let g : ℝ := 9.80665
  let r : ℝ := 287.053
  let gam : ℝ := 1.4
  if 50000 < altp then Except.error PyError.atmosphereAltitudeLimit
  else
    match atmLoop altp g r 8 0 atmP0 atmT0 with
    | Except.error e => Except.error e
    | Except.ok (j, P, T) =>
      match atmZ.get? j, atmDtodz.get? j, T.get? j, P.get? j with
      | some zj, some dj, some tj, some pj =>
        let pamb :=
          if 0 < |dj| then
            pj * (1 + (dj / tj) * (altp - zj)) ^ (-g / (r * dj))
          else
            pj * Real.exp (-(g / r) * ((altp - zj) / tj))
        let tamb := tj + dj * (altp - zj) + disa
        let vsnd := Real.sqrt (gam * r * tamb)
        Except.ok (pamb, tamb, vsnd, g)
      | _, _, _, _ => Except.error PyError.indexError

/- ------------------------------------------------------------------ -/
/- Aircraft object (design_model.py)                                   -/
/- ------------------------------------------------------------------ -/

/-- Modelled from the spec: the `unit` module is not under src/.
`unit.convert_from("kg/daN/h", x)` converts a value expressed in
kg/daN/h into SI kg/N/s: one daN is 10 N and one hour is 3600 s,
so the factor is 1/36000. -/
def unit_convert_kg_daN_h (x : ℝ) : ℝ := x / 36000

/-- `Aircraft.l_o_d(npax)` (design_model.py, lines 60-67). -/
def l_o_d (npax : ℝ) : ℝ :=
  let pax1 : ℝ := 60
  let lod1 : ℝ := 15
  let pax2 : ℝ := 160
  let lod2 : ℝ := 20
  let lod := lod1 + (lod2 - lod1) * (npax - pax1) / (pax2 - pax1)
  max lod1 (min lod lod2)

/-- The mutable attributes of the Python `Aircraft` object.  Attributes
that are `None` until first written hold arbitrary real values here; the
field `eff_ratio_` carries a trailing underscore for `self.eff_ratio`. -/
structure Aircraft where
  cruise_altp : ℝ
  cruise_mach : ℝ
  cruise_speed : ℝ
  range : ℝ
  npax : ℝ
  mpax : ℝ
  payload : ℝ
  mtow : ℝ
  owe : ℝ
  ldw : ℝ
  fuel_mission : ℝ
  fuel_reserve : ℝ
  kr : ℝ
  payload_max : ℝ
  range_pl_max : ℝ
  payload_fuel_max : ℝ
  range_fuel_max : ℝ
  range_no_pl : ℝ
  lod : ℝ
  sfc : ℝ
  eff_ratio_ : ℝ
  owe_coef : ℝ × ℝ × ℝ

/-- `Aircraft.structure(mtow, coef)` (design_model.py, lines 69-74).
Returns the updated object state and the owe value; a supplied `coef`
overwrites the persistent `owe_coef` before the formula is evaluated. -/
def Aircraft.structure_ (ac : Aircraft) (mtow : ℝ) (coef : Option (ℝ × ℝ × ℝ)) :
    Aircraft × ℝ :=
  let ac1 := match coef with
    | some c => { ac with owe_coef := c }
    | none => ac
  (ac1, (ac1.owe_coef.1 * mtow + ac1.owe_coef.2.1) * mtow + ac1.owe_coef.2.2)

/-- `Aircraft.mission(tow, fuel_mission, effr)` (design_model.py, lines
76-84).  A supplied `effr` (in daN.h/kg) overwrites the persistent
`eff_ratio` before the Breguet formula is evaluated; the atmosphere call
can raise, which propagates. -/
def Aircraft.mission (ac : Aircraft) (tow fuel_mission : ℝ) (effr : Option ℝ) :
    Aircraft × Except PyError ℝ :=
  let ac1 := match effr with
    | some e => { ac with eff_ratio_ := e / unit_convert_kg_daN_h 1 }
    | none => ac
  match atmosphere ac1.cruise_altp 0 with
  | Except.error e => (ac1, Except.error e)
  | Except.ok (_pamb, _tamb, vsnd, g) =>
    let range_factor := ac1.cruise_mach * vsnd * ac1.eff_ratio_ / g
    (ac1, Except.ok (range_factor * Real.log (tow / (tow - fuel_mission))))

/-- `Aircraft.max_capacity(range)` (design_model.py, lines 86-102);
`np.floor` is the integer floor, returned as a real. -/
def Aircraft.max_capacity (ac : Aircraft) (range' : ℝ) : ℝ :=
  if range' ≤ ac.range_pl_max then
    (⌊ac.payload_max / ac.mpax⌋ : ℝ)
  else if ac.range_pl_max < range' ∧ range' ≤ ac.range_fuel_max then
    let payload := ac.payload_fuel_max + (ac.payload_max - ac.payload_fuel_max)
      * (range' - ac.range_fuel_max) / (ac.range_pl_max - ac.range_fuel_max)
    (⌊payload / ac.mpax⌋ : ℝ)
  else if ac.range_fuel_max < range' ∧ range' ≤ ac.range_no_pl then
    let payload := ac.payload_fuel_max * (range' - ac.range_no_pl)
      / (ac.range_fuel_max - ac.range_no_pl)
    (⌊payload / ac.mpax⌋ : ℝ)
  else 0

/-- `Aircraft.eval_design(X)` (design_model.py, lines 141-154).  Note that
it mutates the object on every call: it stores the candidate `X` into
`mtow`/`fuel_mission` and rewrites `fuel_reserve`, `ldw`, `payload` and
`owe` before returning the residual pair. -/
def Aircraft.eval_design (ac : Aircraft) (X : ℝ × ℝ) :
    Aircraft × Except PyError (ℝ × ℝ) :=
  let ac1 := { ac with mtow := X.1, fuel_mission := X.2 }
  let s := Aircraft.structure_ ac1 ac1.mtow none
  let ac2 := s.1
  let owe_eff := s.2
  match Aircraft.mission ac2 ac2.mtow ac2.fuel_mission none with
  | (ac3, Except.error e) => (ac3, Except.error e)
  | (ac3, Except.ok range_eff) =>
    let ac4 := { ac3 with fuel_reserve := ac3.kr * ac3.fuel_mission }
    let ac5 := { ac4 with ldw := ac4.mtow - ac4.fuel_mission }
    let ac6 := { ac5 with payload := ac5.npax * ac5.mpax }
    let ac7 := { ac6 with owe := ac6.mtow - ac6.payload - ac6.fuel_mission - ac6.fuel_reserve }
    (ac7, Except.ok (ac7.owe - owe_eff, ac7.range - range_eff))

/-- Modelled from the spec: `scipy.optimize.fsolve` is an external
root-finder ("solve by a multivariate root-finder ...; on failure to
converge, the call fails").  One run on a two-unknown problem is recorded
as the list of points at which fsolve evaluated the residual callback (in
order), the returned solution `dict[0]` and the info flag `dict[2]`. -/
structure FsolveRun2 where
  evals : List (ℝ × ℝ)
  sol : ℝ × ℝ
  flag : ℤ

/-- Modelled from the spec: an fsolve run on a one-unknown problem whose
residual callback is pure (the propulsor balance), so only the returned
solution and the info flag are observable. -/
structure FsolveSol1 where
  sol : ℝ
  flag : ℤ

/-- Modelled from the spec: an fsolve run on a two-unknown problem whose
residual callback is pure, so only the solution and the flag are
observable. -/
structure FsolveSol2 where
  sol : ℝ × ℝ
  flag : ℤ

/-- The state mutation performed by fsolve evaluating `self.eval_design`
at each recorded point (return values go to the root-finder; an exception
raised inside the callback propagates out of the fsolve call). -/
def Aircraft.runEvals : Aircraft → List (ℝ × ℝ) → Aircraft × Except PyError Unit
  | ac, [] => (ac, Except.ok ())
  | ac, X :: xs =>
    match Aircraft.eval_design ac X with
    | (ac2, Except.ok _) => Aircraft.runEvals ac2 xs
    | (ac2, Except.error e) => (ac2, Except.error e)

/-- The argument-overwrite preamble of `Aircraft.design_aircraft`
(design_model.py, lines 160-166). -/
def Aircraft.designPre (ac : Aircraft) (coef : Option (ℝ × ℝ × ℝ))
    (kr mpax effr : Option ℝ) : Aircraft :=
  let ac1 := match coef with
    | some c => { ac with owe_coef := c }
    | none => ac
  let ac2 := match kr with
    | some k => { ac1 with kr := k }
    | none => ac1
  let ac3 := match mpax with
    | some m => { ac2 with mpax := m }
    | none => ac2
  match effr with
  | some e => { ac3 with eff_ratio_ := e / unit_convert_kg_daN_h 1 }
  | none => { ac3 with eff_ratio_ := l_o_d ac3.npax / ac3.sfc }

/-- The tail of `Aircraft.design_aircraft` after the fsolve call and the
re-evaluation at the solution (design_model.py, lines 174-186): store the
cruise speed and build the three payload-range envelope corners by
reusing `mission` at bounding payload/fuel allocations. -/
def Aircraft.designEnvelope (acF : Aircraft) : Aircraft × Except PyError Unit :=
  match atmosphere acF.cruise_altp 0 with
  | Except.error e => (acF, Except.error e)
  | Except.ok (_pamb, _tamb, vsnd, _g) =>
    let acG := { acF with cruise_speed := vsnd * acF.cruise_mach }
    let acH := { acG with payload_max := acG.payload * 1.20 }
    let fuel := (acH.mtow - acH.owe - acH.payload_max) / (1 + acH.kr)
    match Aircraft.mission acH acH.mtow fuel none with
    | (acH2, Except.error e) => (acH2, Except.error e)
    | (acH2, Except.ok r1) =>
      let acI := { acH2 with range_pl_max := r1 }
      let acJ := { acI with payload_fuel_max := acI.payload * 0.40 }
      let fuel_max := (acJ.mtow - acJ.owe - acJ.payload_fuel_max) / (1 + acJ.kr)
      match Aircraft.mission acJ acJ.mtow fuel_max none with
      | (acJ2, Except.error e) => (acJ2, Except.error e)
      | (acJ2, Except.ok r2) =>
        let acK := { acJ2 with range_fuel_max := r2 }
        let tow := acK.owe + fuel_max * (1 + acK.kr)
        match Aircraft.mission acK tow fuel_max none with
        | (acK2, Except.error e) => (acK2, Except.error e)
        | (acK2, Except.ok r3) => ({ acK2 with range_no_pl := r3 }, Except.ok ())

/-- `Aircraft.design_aircraft(coef, kr, mpax, effr)` (design_model.py,
lines 156-186), relative to one recorded fsolve run.  On a non-1 info
flag it raises; otherwise it re-evaluates `eval_design` at the solution
and builds the payload-range envelope corners. -/
def Aircraft.design_aircraft (ac : Aircraft) (coef : Option (ℝ × ℝ × ℝ))
    (kr mpax effr : Option ℝ) (run : FsolveRun2) : Aircraft × Except PyError Unit :=
  let ac1 := Aircraft.designPre ac coef kr mpax effr
  match Aircraft.runEvals ac1 run.evals with
  | (acE, Except.error e) => (acE, Except.error e)
  | (acE, Except.ok _) =>
    if run.flag ≠ 1 then (acE, Except.error PyError.convergenceProblem)
    else
      match Aircraft.eval_design acE run.sol with
      | (acF, Except.error e) => (acF, Except.error e)
      | (acF, Except.ok _) => Aircraft.designEnvelope acF

/-- The residual callback `fct` of `Aircraft.operation` (design_model.py,
lines 126-131); it reads but never writes the object. -/
def Aircraft.op_fct (ac : Aircraft) (n_pax range' : ℝ) (x : ℝ × ℝ) :
    Except PyError (ℝ × ℝ) :=
  match Aircraft.mission ac x.1 x.2 none with
  | (_, Except.error e) => Except.error e
  | (_, Except.ok range_eff) =>
    let owe_eff := x.1 - (ac.mpax * n_pax + (1 + ac.kr) * x.2)
    Except.ok (ac.owe - owe_eff, range' - range_eff)

/-- Exceptions raised while fsolve evaluates `Aircraft.operation`'s
residual callback at the recorded points. -/
def Aircraft.opEvals (ac : Aircraft) (n_pax range' : ℝ) :
    List (ℝ × ℝ) → Except PyError Unit
  | [] => Except.ok ()
  | x :: xs =>
    match Aircraft.op_fct ac n_pax range' x with
    | Except.error e => Except.error e
    | Except.ok _ => Aircraft.opEvals ac n_pax range' xs

/-- `Aircraft.operation(n_pax, range)` (design_model.py, lines 119-139),
relative to one recorded fsolve run.  Returns
`(mission_fuel, mission_time, tow)`. -/
def Aircraft.operation (ac : Aircraft) (n_pax range' : ℝ) (run : FsolveRun2) :
    Except PyError (ℝ × ℝ × ℝ) :=
  match Aircraft.opEvals ac n_pax range' run.evals with
  | Except.error e => Except.error e
  | Except.ok _ =>
    if run.flag ≠ 1 then Except.error PyError.convergenceProblem
    else
      let tow := run.sol.1
      let mission_fuel := run.sol.2
      let mission_time := 20 * 60 + ac.cruise_speed * range'
      Except.ok (mission_fuel, mission_time, tow)

/- ------------------------------------------------------------------ -/
/- Electrofan nacelle (power_and_system.py, Semi_empiric_ef_nacelle)   -/
/- ------------------------------------------------------------------ -/

/-- Modelled from the spec: the `earth` module is not under src/.
`earth.gas_data()` returns the working-gas constants `(r, gam, Cp, Cv)`;
the values of `r` and `gam` match the literals the repository itself uses
in `Aircraft.atmosphere` (287.053 and 1.4), with the standard
`Cp = gam*r/(gam-1)` and `Cv = r/(gam-1)`. -/
def gas_r : ℝ := 287.053

/-- Modelled from the spec: ratio of specific heats of air. -/
def gas_gam : ℝ := 1.4

/-- Modelled from the spec: specific heat at constant pressure. -/
def gas_Cp : ℝ := gas_gam * gas_r / (gas_gam - 1)

/-- Modelled from the spec: `earth.sound_speed(tamb)`, the closed-form
speed of sound, as also written inline in `Aircraft.atmosphere`. -/
def sound_speed (tamb : ℝ) : ℝ := Real.sqrt (gas_gam * gas_r * tamb)

/-- Modelled from the spec: `earth.total_pressure(pamb, mach)`, the
closed-form isentropic stagnation pressure. -/
def total_pressure (pamb mach : ℝ) : ℝ :=
  pamb * (1 + (gas_gam - 1) / 2 * mach ^ 2) ^ (gas_gam / (gas_gam - 1))

/-- Modelled from the spec: `earth.total_temperature(tamb, mach)`, the
closed-form isentropic stagnation temperature. -/
def total_temperature (tamb mach : ℝ) : ℝ :=
  tamb * (1 + (gas_gam - 1) / 2 * mach ^ 2)

/-- `Semi_empiric_ef_nacelle.corrected_air_flow(Ptot, Ttot, Mach)`
(power_and_system.py, lines 414-420); the method reads nothing from
`self`, so it is a plain function. -/
def corrected_air_flow (Ptot Ttot Mach : ℝ) : ℝ :=
  let f_m := Mach * (1 + 0.5 * (gas_gam - 1) * Mach ^ 2)
    ^ (-(gas_gam + 1) / (2 * (gas_gam - 1)))
  Real.sqrt (gas_gam / gas_r) * Ptot / Real.sqrt Ttot * f_m

/-- Engine rating names (keys of the `rating_factor` dictionary). -/
inductive Rating where
  | MTO | MCN | MCL | MCR | FID | VAR
deriving DecidableEq

/-- The `rating_factor` dictionary of `Semi_empiric_ef_nacelle.__init__`
(power_and_system.py, line 313). -/
def ef_rating_factor : Rating → ℝ
  | Rating.MTO => 1.00
  | Rating.MCN => 0.90
  | Rating.MCL => 0.90
  | Rating.MCR => 0.90
  | Rating.FID => 0.10
  | Rating.VAR => 1

/-- The attributes of `Semi_empiric_ef_nacelle` read by `unitary_thrust`
and `unitary_sc`. -/
structure Semi_empiric_ef_nacelle where
  reference_power : ℝ
  rating_factor : Rating → ℝ
  efficiency_fan : ℝ
  motor_efficiency : ℝ
  controller_efficiency : ℝ
  hub_width : ℝ
  fan_width : ℝ
  nozzle_area : ℝ

/-- The shaft power computed at the head of `unitary_thrust`
(power_and_system.py, lines 441-442):
`PwInput = reference_power*rating_factor[rating]*throttle - pw_offtake;`
`PwShaft = PwInput*motor_efficiency*controller_efficiency`. -/
def Semi_empiric_ef_nacelle.shaft_power (nac : Semi_empiric_ef_nacelle)
    (rating : Rating) (throttle pw_offtake : ℝ) : ℝ :=
  (nac.reference_power * nac.rating_factor rating * throttle - pw_offtake)
    * nac.motor_efficiency * nac.controller_efficiency

/-- The residual callback `fct` of `unitary_thrust` (power_and_system.py,
lines 427-439): the corrected-flow continuity error at the nozzle for a
candidate captured air flow `q`. -/
def Semi_empiric_ef_nacelle.ef_fct (nac : Semi_empiric_ef_nacelle)
    (q PwShaft pamb Ttot Vair : ℝ) : ℝ :=
  let Vinlet := Vair
  let PwInput := nac.efficiency_fan * PwShaft
  let Vjet := Real.sqrt (2 * PwInput / q + Vinlet ^ 2)
  let TtotJet := Ttot + PwShaft / (q * gas_Cp)
  let TstatJet := TtotJet - 0.5 * Vjet ^ 2 / gas_Cp
  let VsndJet := sound_speed TstatJet
  let MachJet := Vjet / VsndJet
  let PtotJet := total_pressure pamb MachJet
  let CQoA1 := corrected_air_flow PtotJet TtotJet MachJet
  let q0 := CQoA1 * nac.nozzle_area
  q0 - q

/-- The result dictionary of `unitary_thrust`: `{"fn": eFn, "pw": PwInput}`. -/
structure EfResult where
  fn : ℝ
  pw : ℝ

/-- `Semi_empiric_ef_nacelle.unitary_thrust` (power_and_system.py, lines
422-465), relative to one recorded fsolve run; the residual callback is
pure, so only the returned solution and info flag are observable.  The
source reads `q0 = output_dict[0][0]` and then raises if the flag is not
1; otherwise it recomputes the jet velocity from the solved flow and
returns the net thrust `q0*(Vjet - Vinlet)`. -/
def Semi_empiric_ef_nacelle.unitary_thrust (nac : Semi_empiric_ef_nacelle)
    (pamb tamb mach : ℝ) (rating : Rating) (throttle pw_offtake : ℝ)
    (run : FsolveSol1) : Except PyError EfResult :=
  let PwShaft := nac.shaft_power rating throttle pw_offtake
  let _Ptot := total_pressure pamb mach
  let _Ttot := total_temperature tamb mach
  let Vair := mach * sound_speed tamb
  let q0 := run.sol
  if run.flag ≠ 1 then Except.error PyError.convergenceProblem
  else
    let Vinlet := Vair
    let PwInput := nac.efficiency_fan * PwShaft
    let Vjet := Real.sqrt (2 * PwInput / q0 + Vinlet ^ 2)
    let eFn := q0 * (Vjet - Vinlet)
    Except.ok { fn := eFn, pw := PwInput }

/-- The residual callback `fct` of `unitary_sc` (power_and_system.py,
lines 491-505): for candidate `(q, PwShaft)` it returns the
corrected-flow continuity error paired with the thrust-matching error
`thrust - q*(Vjet - Vinlet)`. -/
def Semi_empiric_ef_nacelle.sc_fct (nac : Semi_empiric_ef_nacelle)
    (x : ℝ × ℝ) (thrust pamb Ttot Vair : ℝ) : ℝ × ℝ :=
  let q := x.1
  let PwShaft := x.2
  let Vinlet := Vair
  let PwInput := nac.efficiency_fan * PwShaft
  let Vjet := Real.sqrt (2 * PwInput / q + Vinlet ^ 2)
  let TtotJet := Ttot + PwShaft / (q * gas_Cp)
  let TstatJet := TtotJet - 0.5 * Vjet ^ 2 / gas_Cp
  let VsndJet := sound_speed TstatJet
  let MachJet := Vjet / VsndJet
  let PtotJet := total_pressure pamb MachJet
  let CQoA1 := corrected_air_flow PtotJet TtotJet MachJet
  let q0 := CQoA1 * nac.nozzle_area
  let eFn := q * (Vjet - Vinlet)
  (q0 - q, thrust - eFn)

/-- The result dictionary of `unitary_sc`:
`{"sec": sec, "pw": Pw, "thtl": throttle}`. -/
structure ScResult where
  sec : ℝ
  pw : ℝ
  thtl : ℝ

/-- `Semi_empiric_ef_nacelle.unitary_sc` (power_and_system.py, lines
486-537), relative to one recorded fsolve run on the joint unknown
`(q, PwShaft)`. -/
def Semi_empiric_ef_nacelle.unitary_sc (nac : Semi_empiric_ef_nacelle)
    (pamb tamb mach : ℝ) (rating : Rating) (thrust pw_offtake : ℝ)
    (run : FsolveSol2) : Except PyError ScResult :=
  let _Ptot := total_pressure pamb mach
  let _Ttot := total_temperature tamb mach
  let Vair := mach * sound_speed tamb
  let q0 := run.sol.1
  let Pw := run.sol.2
  if run.flag ≠ 1 then Except.error PyError.convergenceProblem
  else
    let Vinlet := Vair
    let PwInput := nac.efficiency_fan * Pw
    let Vjet := Real.sqrt (2 * PwInput / q0 + Vinlet ^ 2)
    let eFn := q0 * (Vjet - Vinlet)
    let throttle := (Pw + pw_offtake) / (nac.reference_power * nac.rating_factor rating)
    let sec := Pw / eFn
    Except.ok { sec := sec, pw := Pw, thtl := throttle }

/- ------------------------------------------------------------------ -/
/- Concrete objects used by witnesses and counterexamples              -/
/- ------------------------------------------------------------------ -/

/-- A concrete aircraft state: the values a 150-pax / 3000-NM design
would carry (mass fields rounded), with a sea-level cruise pressure
altitude to keep atmosphere evaluations short. -/
def ac0 : Aircraft :=
  { cruise_altp := 0, cruise_mach := 0.78, cruise_speed := 0,
    range := 5556000, npax := 150, mpax := 130,
    payload := 19500, mtow := 77000, owe := 36500, ldw := 57000,
    fuel_mission := 20000, fuel_reserve := 1000, kr := 0.05,
    payload_max := 23400, range_pl_max := 0, payload_fuel_max := 7800,
    range_fuel_max := 0, range_no_pl := 0,
    lod := 19.5, sfc := 0.54 / 36000, eff_ratio_ := 1300000,
    owe_coef := (-0.0000001478, 0.5459, 840) }

/-- A concrete aircraft state whose payload-range envelope corners
satisfy the envelope invariant. -/
def acPLR : Aircraft :=
  { ac0 with range_pl_max := 1000, range_fuel_max := 2000, range_no_pl := 3000 }

/-- A concrete electrofan nacelle (degenerate zero nozzle area, which
makes the continuity residual vanish at zero captured flow). -/
def nac0 : Semi_empiric_ef_nacelle :=
  { reference_power := 10000, rating_factor := ef_rating_factor,
    efficiency_fan := 0.95, motor_efficiency := 0.95,
    controller_efficiency := 0.99,
    hub_width := 0.2, fan_width := 1.2, nozzle_area := 0 }

/-- Sea-level speed of sound of the embedded atmosphere model. -/
def vsnd0 : ℝ := Real.sqrt (1.4 * 287.053 * 288.15)

/-- The Breguet range factor of `ac0` at its sea-level cruise point. -/
def rf0 : ℝ := 0.78 * vsnd0 * 1300000 / 9.80665

/-- A converged fsolve run at solution `(77000, 0)` (zero mission fuel). -/
def runC1 : FsolveRun2 := { evals := [], sol := (77000, 0), flag := 1 }

/-- A converged fsolve run at solution `(77000, 20000)`. -/
def runC4 : FsolveRun2 := { evals := [], sol := (77000, 20000), flag := 1 }

/-- A failed fsolve run that evaluated the residual once at `(1, 0)`. -/
def runC8 : FsolveRun2 := { evals := [(1, 0)], sol := (0, 0), flag := 0 }

/-- The state `design_aircraft ac0 .. runC1` returns. -/
def acW1 : Aircraft :=
  { ac0 with
    cruise_speed := vsnd0 * 0.78,
    payload := 19500, mtow := 77000, owe := 57500, ldw := 77000,
    fuel_mission := 0, fuel_reserve := 0,
    payload_max := 23400,
    range_pl_max := rf0 * Real.log (77000 / (77000 + 26000 / 7)),
    payload_fuel_max := 7800,
    range_fuel_max := rf0 * Real.log (77000 / (77000 - 78000 / 7)),
    range_no_pl := rf0 * Real.log (69200 / (69200 - 78000 / 7)) }

/-- The state `design_aircraft ac0 .. runC4` returns. -/
def acW4 : Aircraft :=
  { ac0 with
    cruise_speed := vsnd0 * 0.78,
    payload := 19500, mtow := 77000, owe := 36500, ldw := 57000,
    fuel_mission := 20000, fuel_reserve := 1000,
    payload_max := 23400,
    range_pl_max := rf0 * Real.log (77000 / (77000 - 114000 / 7)),
    payload_fuel_max := 7800,
    range_fuel_max := rf0 * Real.log (77000 / (77000 - 218000 / 7)),
    range_no_pl := rf0 * Real.log (69200 / (69200 - 218000 / 7)) }

/- ------------------------------------------------------------------ -/
/- Helper lemmas                                                       -/
/- ------------------------------------------------------------------ -/

/-- Evaluation of the atmosphere model at sea level. -/
theorem atmosphere_zero :
    atmosphere 0 0 =
      Except.ok (101325, 288.15, Real.sqrt (1.4 * 287.053 * 288.15), 9.80665) := by
  rw [atmosphere]
  norm_num [atmLoop, atmZ, atmDtodz, atmP0, atmT0]

/-- At exactly the 50 km ceiling the band loop runs off the end of the
`Z` table: the condition `Z[1+j] <= altp` is still true at `j = 4`, so
the loop body runs once more and the next condition check reads `Z[6]`,
which does not exist. -/
theorem atmosphere_at_ceiling :
    atmosphere 50000 0 = Except.error PyError.indexError := by
  rw [atmosphere]
  norm_num [atmLoop, atmZ, atmDtodz, atmP0, atmT0, List.set]

/-- Above the ceiling the explicit altitude guard raises. -/
theorem atmosphere_above_ceiling :
    atmosphere 50001 0 = Except.error PyError.atmosphereAltitudeLimit := by
  rw [atmosphere]
  norm_num

/-- Just below the ceiling the model returns normally. -/
theorem atmosphere_below_ceiling :
    ∃ p t v g, atmosphere 49999 0 = Except.ok (p, t, v, g) := by
  rw [atmosphere]
  norm_num [atmLoop, atmZ, atmDtodz, atmP0, atmT0, List.set]

/-- `mission` without the optional argument does not change the object,
whether or not the atmosphere call raises. -/
theorem mission_none_fst (ac : Aircraft) (tow fm : ℝ) :
    (Aircraft.mission ac tow fm none).1 = ac := by
  rw [Aircraft.mission]
  rcases h : atmosphere ac.cruise_altp 0 with e | ⟨p, t, v, g⟩ <;> simp

/-- Evaluation of `mission` without the optional argument when the
atmosphere call succeeds. -/
theorem mission_none_eq (ac : Aircraft) (tow fm pamb tamb vsnd g : ℝ)
    (h : atmosphere ac.cruise_altp 0 = Except.ok (pamb, tamb, vsnd, g)) :
    Aircraft.mission ac tow fm none =
      (ac, Except.ok (ac.cruise_mach * vsnd * ac.eff_ratio_ / g
        * Real.log (tow / (tow - fm)))) := by
  rw [Aircraft.mission]
  simp [h]

/-- Evaluation of `eval_design` when the atmosphere call succeeds: the
object is mutated to the candidate point and the residual pair is
returned. -/
theorem eval_design_eq (ac : Aircraft) (X : ℝ × ℝ) (pamb tamb vsnd g : ℝ)
    (h : atmosphere ac.cruise_altp 0 = Except.ok (pamb, tamb, vsnd, g)) :
    Aircraft.eval_design ac X =
      ({ ac with mtow := X.1, fuel_mission := X.2,
                 fuel_reserve := ac.kr * X.2, ldw := X.1 - X.2,
                 payload := ac.npax * ac.mpax,
                 owe := X.1 - ac.npax * ac.mpax - X.2 - ac.kr * X.2 },
       Except.ok (X.1 - ac.npax * ac.mpax - X.2 - ac.kr * X.2
            - ((ac.owe_coef.1 * X.1 + ac.owe_coef.2.1) * X.1 + ac.owe_coef.2.2),
          ac.range - ac.cruise_mach * vsnd * ac.eff_ratio_ / g
            * Real.log (X.1 / (X.1 - X.2)))) := by
  rw [Aircraft.eval_design, Aircraft.structure_]
  rw [mission_none_eq _ _ _ pamb tamb vsnd g (by simpa using h)]

/-- `eval_design` always stores the candidate point into
`mtow`/`fuel_mission`, whether or not it raises. -/
theorem eval_design_fst_mtow (ac : Aircraft) (X : ℝ × ℝ) :
    ((Aircraft.eval_design ac X).1).mtow = X.1
      ∧ ((Aircraft.eval_design ac X).1).fuel_mission = X.2 := by
  rw [Aircraft.eval_design, Aircraft.structure_]
  rcases h : Aircraft.mission { ac with mtow := X.1, fuel_mission := X.2 }
      X.1 X.2 none with ⟨ac3, r | r⟩
  · have h1 : ac3 = { ac with mtow := X.1, fuel_mission := X.2 } := by
      have := congrArg Prod.fst h
      simpa [mission_none_fst] using this.symm
    simp [h, h1]
  · have h1 : ac3 = { ac with mtow := X.1, fuel_mission := X.2 } := by
      have := congrArg Prod.fst h
      simpa [mission_none_fst] using this.symm
    simp [h, h1]

/-- Evaluation of the envelope tail when the atmosphere call succeeds. -/
theorem designEnvelope_eq (acF : Aircraft) (pamb tamb vsnd g : ℝ)
    (h : atmosphere acF.cruise_altp 0 = Except.ok (pamb, tamb, vsnd, g)) :
    Aircraft.designEnvelope acF =
      ({ acF with
          cruise_speed := vsnd * acF.cruise_mach,
          payload_max := acF.payload * 1.20,
          range_pl_max := acF.cruise_mach * vsnd * acF.eff_ratio_ / g
            * Real.log (acF.mtow
              / (acF.mtow - (acF.mtow - acF.owe - acF.payload * 1.20) / (1 + acF.kr))),
          payload_fuel_max := acF.payload * 0.40,
          range_fuel_max := acF.cruise_mach * vsnd * acF.eff_ratio_ / g
            * Real.log (acF.mtow
              / (acF.mtow - (acF.mtow - acF.owe - acF.payload * 0.40) / (1 + acF.kr))),
          range_no_pl := acF.cruise_mach * vsnd * acF.eff_ratio_ / g
            * Real.log ((acF.owe
                  + (acF.mtow - acF.owe - acF.payload * 0.40) / (1 + acF.kr) * (1 + acF.kr))
              / (acF.owe
                  + (acF.mtow - acF.owe - acF.payload * 0.40) / (1 + acF.kr) * (1 + acF.kr)
                  - (acF.mtow - acF.owe - acF.payload * 0.40) / (1 + acF.kr))) },
       Except.ok ()) := by
  have key : ∀ (s : Aircraft) (tow fm : ℝ), s.cruise_altp = acF.cruise_altp →
      Aircraft.mission s tow fm none =
        (s, Except.ok (s.cruise_mach * vsnd * s.eff_ratio_ / g
          * Real.log (tow / (tow - fm)))) := by
    intro s tow fm hs
    exact mission_none_eq s tow fm pamb tamb vsnd g (by rw [hs]; exact h)
  unfold Aircraft.designEnvelope
  rw [h]
  simp only [key]

/-- `mission` propagates an atmosphere failure. -/
theorem mission_none_err (ac : Aircraft) (tow fm : ℝ) (e : PyError)
    (h : atmosphere ac.cruise_altp 0 = Except.error e) :
    Aircraft.mission ac tow fm none = (ac, Except.error e) := by
  rw [Aircraft.mission]
  simp [h]

/-- `eval_design` propagates an atmosphere failure after having already
stored the candidate point into the object. -/
theorem eval_design_err (ac : Aircraft) (X : ℝ × ℝ) (e : PyError)
    (h : atmosphere ac.cruise_altp 0 = Except.error e) :
    Aircraft.eval_design ac X =
      ({ ac with mtow := X.1, fuel_mission := X.2 }, Except.error e) := by
  rw [Aircraft.eval_design, Aircraft.structure_]
  rw [mission_none_err _ _ _ e (by simpa using h)]

/-- Inversion of a successful `design_aircraft` call: the returned state
satisfies the converged mass breakdown and carries the three envelope
corners produced by `mission` at the bounding allocations. -/
theorem design_ok_inversion (ac : Aircraft) (coef : Option (ℝ × ℝ × ℝ))
    (kr mpax effr : Option ℝ) (run : FsolveRun2) (acR : Aircraft)
    (hok : Aircraft.design_aircraft ac coef kr mpax effr run = (acR, Except.ok ())) :
    ∃ pamb tamb vsnd g,
      atmosphere acR.cruise_altp 0 = Except.ok (pamb, tamb, vsnd, g)
      ∧ acR.mtow = run.sol.1
      ∧ acR.fuel_mission = run.sol.2
      ∧ acR.payload = acR.npax * acR.mpax
      ∧ acR.fuel_reserve = acR.kr * acR.fuel_mission
      ∧ acR.ldw = acR.mtow - acR.fuel_mission
      ∧ acR.owe = acR.mtow - acR.payload - acR.fuel_mission - acR.fuel_reserve
      ∧ acR.payload_max = acR.payload * 1.20
      ∧ acR.payload_fuel_max = acR.payload * 0.40
      ∧ acR.range_pl_max = acR.cruise_mach * vsnd * acR.eff_ratio_ / g
          * Real.log (acR.mtow
            / (acR.mtow - (acR.mtow - acR.owe - acR.payload * 1.20) / (1 + acR.kr)))
      ∧ acR.range_fuel_max = acR.cruise_mach * vsnd * acR.eff_ratio_ / g
          * Real.log (acR.mtow
            / (acR.mtow - (acR.mtow - acR.owe - acR.payload * 0.40) / (1 + acR.kr)))
      ∧ acR.range_no_pl = acR.cruise_mach * vsnd * acR.eff_ratio_ / g
          * Real.log ((acR.owe
                + (acR.mtow - acR.owe - acR.payload * 0.40) / (1 + acR.kr) * (1 + acR.kr))
            / (acR.owe
                + (acR.mtow - acR.owe - acR.payload * 0.40) / (1 + acR.kr) * (1 + acR.kr)
                - (acR.mtow - acR.owe - acR.payload * 0.40) / (1 + acR.kr))) := by
  rw [Aircraft.design_aircraft] at hok
  rcases h1 : Aircraft.runEvals (Aircraft.designPre ac coef kr mpax effr) run.evals
    with ⟨acE, rE⟩
  rw [h1] at hok
  cases rE with
  | error e => simp at hok
  | ok u =>
    dsimp only at hok
    by_cases hf : run.flag ≠ 1
    · rw [if_pos hf] at hok
      simp at hok
    · rw [if_neg hf] at hok
      rcases hA : atmosphere acE.cruise_altp 0 with e | ⟨p, t, v, g⟩
      · rw [eval_design_err acE run.sol e hA] at hok
        simp at hok
      · rw [eval_design_eq acE run.sol p t v g hA] at hok
        dsimp only at hok
        have hEnv := designEnvelope_eq
          { acE with
            mtow := run.sol.1,
            fuel_mission := run.sol.2,
            fuel_reserve := acE.kr * run.sol.2,
            ldw := run.sol.1 - run.sol.2,
            payload := acE.npax * acE.mpax,
            owe := run.sol.1 - acE.npax * acE.mpax - run.sol.2 - acE.kr * run.sol.2 }
          p t v g (by simpa using hA)
        rw [hEnv] at hok
        have hR := congrArg Prod.fst hok
        simp only at hR
        refine ⟨p, t, v, g, ?_, ?_, ?_, ?_, ?_, ?_, ?_, ?_, ?_, ?_, ?_, ?_⟩ <;>
          simp [← hR, hA]


theorem l_o_d_150 : l_o_d 150 = 19.5 := by
  rw [l_o_d]
  norm_num

theorem atmosphere_ac0 :
    atmosphere ac0.cruise_altp 0 =
      Except.ok (101325, 288.15, Real.sqrt (1.4 * 287.053 * 288.15), 9.80665) := by
  have h : ac0.cruise_altp = 0 := rfl
  rw [h]
  exact atmosphere_zero

theorem designPre_ac0 :
    Aircraft.designPre ac0 none none none none = ac0 := by
  rw [Aircraft.designPre]
  simp [ac0, l_o_d_150]
  norm_num


/-- Closed-form evaluation of `design_aircraft` on a converged run that
recorded no residual evaluations, for an aircraft fixed by `designPre`. -/
theorem design_simple_eq (ac : Aircraft) (sol : ℝ × ℝ) (p t v g : ℝ)
    (hpre : Aircraft.designPre ac none none none none = ac)
    (hatm : atmosphere ac.cruise_altp 0 = Except.ok (p, t, v, g)) :
    Aircraft.design_aircraft ac none none none none
        { evals := [], sol := sol, flag := 1 } =
      ({ ac with
          mtow := sol.1,
          fuel_mission := sol.2,
          fuel_reserve := ac.kr * sol.2,
          ldw := sol.1 - sol.2,
          payload := ac.npax * ac.mpax,
          owe := sol.1 - ac.npax * ac.mpax - sol.2 - ac.kr * sol.2,
          cruise_speed := v * ac.cruise_mach,
          payload_max := ac.npax * ac.mpax * 1.20,
          payload_fuel_max := ac.npax * ac.mpax * 0.40,
          range_pl_max := ac.cruise_mach * v * ac.eff_ratio_ / g
            * Real.log (sol.1 / (sol.1
              - (sol.1 - (sol.1 - ac.npax * ac.mpax - sol.2 - ac.kr * sol.2)
                  - ac.npax * ac.mpax * 1.20) / (1 + ac.kr))),
          range_fuel_max := ac.cruise_mach * v * ac.eff_ratio_ / g
            * Real.log (sol.1 / (sol.1
              - (sol.1 - (sol.1 - ac.npax * ac.mpax - sol.2 - ac.kr * sol.2)
                  - ac.npax * ac.mpax * 0.40) / (1 + ac.kr))),
          range_no_pl := ac.cruise_mach * v * ac.eff_ratio_ / g
            * Real.log (((sol.1 - ac.npax * ac.mpax - sol.2 - ac.kr * sol.2)
                + (sol.1 - (sol.1 - ac.npax * ac.mpax - sol.2 - ac.kr * sol.2)
                    - ac.npax * ac.mpax * 0.40) / (1 + ac.kr) * (1 + ac.kr))
              / ((sol.1 - ac.npax * ac.mpax - sol.2 - ac.kr * sol.2)
                + (sol.1 - (sol.1 - ac.npax * ac.mpax - sol.2 - ac.kr * sol.2)
                    - ac.npax * ac.mpax * 0.40) / (1 + ac.kr) * (1 + ac.kr)
                - (sol.1 - (sol.1 - ac.npax * ac.mpax - sol.2 - ac.kr * sol.2)
                    - ac.npax * ac.mpax * 0.40) / (1 + ac.kr))) },
       Except.ok ()) := by
  unfold Aircraft.design_aircraft
  dsimp only
  rw [hpre]
  simp only [Aircraft.runEvals]
  rw [if_neg (by norm_num)]
  rw [eval_design_eq ac sol p t v g hatm]
  dsimp only
  have hEnv := designEnvelope_eq
    { ac with
      mtow := sol.1,
      fuel_mission := sol.2,
      fuel_reserve := ac.kr * sol.2,
      ldw := sol.1 - sol.2,
      payload := ac.npax * ac.mpax,
      owe := sol.1 - ac.npax * ac.mpax - sol.2 - ac.kr * sol.2 }
    p t v g (by simpa using hatm)
  rw [hEnv]


/-- Evaluation of `design_aircraft` on `ac0` with the run `runC1`. -/
theorem design_run1_eq :
    Aircraft.design_aircraft ac0 none none none none runC1 = (acW1, Except.ok ()) := by
  have h := design_simple_eq ac0 (77000, 0) 101325 288.15
    (Real.sqrt (1.4 * 287.053 * 288.15)) 9.80665 designPre_ac0 atmosphere_ac0
  rw [show runC1 = { evals := [], sol := ((77000 : ℝ), (0 : ℝ)), flag := 1 } from rfl, h]
  simp only [Prod.mk.injEq]
  refine ⟨?_, trivial⟩
  simp only [acW1, ac0, rf0, vsnd0, Aircraft.mk.injEq]
  norm_num

/-- Evaluation of `design_aircraft` on `ac0` with the run `runC4`. -/
theorem design_run4_eq :
    Aircraft.design_aircraft ac0 none none none none runC4 = (acW4, Except.ok ()) := by
  have h := design_simple_eq ac0 (77000, 20000) 101325 288.15
    (Real.sqrt (1.4 * 287.053 * 288.15)) 9.80665 designPre_ac0 atmosphere_ac0
  rw [show runC4 = { evals := [], sol := ((77000 : ℝ), (20000 : ℝ)), flag := 1 } from rfl, h]
  simp only [Prod.mk.injEq]
  refine ⟨?_, trivial⟩
  simp only [acW4, ac0, rf0, vsnd0, Aircraft.mk.injEq]
  norm_num


/- ------------------------------------------------------------------ -/
/- Claim theorems                                                      -/
/- ------------------------------------------------------------------ -/

/-- C1: when `design_aircraft` returns without raising and the
root-finder delivered a point whose `eval_design` residual components
are within `tol` of zero, the converged state closes both balance
equations within `tol`: the structural regression value
`structure(mtow)` agrees with `mtow - payload - fuel_mission -
fuel_reserve`, and `mission(mtow, fuel_mission)` agrees with the
requested range. -/
theorem C1_design_balance_closure
    (ac acR : Aircraft) (coef : Option (ℝ × ℝ × ℝ)) (kr mpax effr : Option ℝ)
    (run : FsolveRun2) (tol res1 res2 : ℝ)
    (hok : Aircraft.design_aircraft ac coef kr mpax effr run = (acR, Except.ok ()))
    (hres : (Aircraft.eval_design acR run.sol).2 = Except.ok (res1, res2))
    (h1 : |res1| ≤ tol) (h2 : |res2| ≤ tol) :
    |(Aircraft.structure_ acR acR.mtow none).2
        - (acR.mtow - acR.payload - acR.fuel_mission - acR.fuel_reserve)| ≤ tol
    ∧ ∃ r, (Aircraft.mission acR acR.mtow acR.fuel_mission none).2 = Except.ok r
        ∧ |r - acR.range| ≤ tol := by
  obtain ⟨p, t, v, g, hatm, hm, hfm, hpl, hfr, hld, howe, hpm, hpf, hr1, hr2, hr3⟩ :=
    design_ok_inversion ac coef kr mpax effr run acR hok
  rw [eval_design_eq acR run.sol p t v g hatm] at hres
  simp only [Except.ok.injEq, Prod.mk.injEq] at hres
  obtain ⟨e1, e2⟩ := hres
  constructor
  · have hs : (Aircraft.structure_ acR acR.mtow none).2
        = (acR.owe_coef.1 * acR.mtow + acR.owe_coef.2.1) * acR.mtow + acR.owe_coef.2.2 := by
      simp [Aircraft.structure_]
    rw [hs, hfr, hpl, hfm, hm]
    have hkey : (acR.owe_coef.1 * run.sol.1 + acR.owe_coef.2.1) * run.sol.1 + acR.owe_coef.2.2
        - (run.sol.1 - acR.npax * acR.mpax - run.sol.2 - acR.kr * run.sol.2) = -res1 := by
      linarith [e1]
    rw [hkey, abs_neg]
    exact h1
  · refine ⟨acR.cruise_mach * v * acR.eff_ratio_ / g
      * Real.log (acR.mtow / (acR.mtow - acR.fuel_mission)), ?_, ?_⟩
    · rw [mission_none_eq acR acR.mtow acR.fuel_mission p t v g hatm]
    · rw [hm, hfm]
      have hkey : acR.cruise_mach * v * acR.eff_ratio_ / g
          * Real.log (run.sol.1 / (run.sol.1 - run.sol.2)) - acR.range = -res2 := by
        linarith [e2]
      rw [hkey, abs_neg]
      exact h2


/-- Witness for C1 at the concrete aircraft `ac0` and run `runC1`, with
tolerance 10^7. -/
theorem C1_witness :
    (|((77510031 : ℝ) / 5000)| ≤ 10000000 ∧ |(5556000 : ℝ)| ≤ 10000000)
    ∧ (|(Aircraft.structure_ acW1 acW1.mtow none).2
          - (acW1.mtow - acW1.payload - acW1.fuel_mission - acW1.fuel_reserve)| ≤ 10000000
       ∧ ∃ r, (Aircraft.mission acW1 acW1.mtow acW1.fuel_mission none).2 = Except.ok r
           ∧ |r - acW1.range| ≤ 10000000) := by
  have hres : (Aircraft.eval_design acW1 runC1.sol).2
      = Except.ok ((77510031 : ℝ) / 5000, (5556000 : ℝ)) := by
    rw [eval_design_eq acW1 runC1.sol 101325 288.15
      (Real.sqrt (1.4 * 287.053 * 288.15)) 9.80665
      (by rw [show acW1.cruise_altp = 0 from rfl]; exact atmosphere_zero)]
    norm_num [acW1, ac0, runC1, Real.log_one]
  refine ⟨⟨by rw [abs_le]; norm_num, by rw [abs_le]; norm_num⟩, ?_⟩
  exact C1_design_balance_closure ac0 acW1 none none none none runC1 10000000
    (77510031 / 5000) 5556000 design_run1_eq hres
    (by rw [abs_le]; norm_num) (by rw [abs_le]; norm_num)

set_option maxHeartbeats 1000000 in
/-- C4: after a successful `design_aircraft` whose converged state is
physically plausible (positive payload and owe, non-negative reserve
fraction, positive fuel allocation at max payload, positive range
factor), the payload-range envelope corners satisfy strictly increasing
range and non-increasing payload along the traversal order. -/
theorem C4_envelope_monotone
    (ac acR : Aircraft) (coef : Option (ℝ × ℝ × ℝ)) (kr mpax effr : Option ℝ)
    (run : FsolveRun2) (pamb tamb vsnd g : ℝ)
    (hok : Aircraft.design_aircraft ac coef kr mpax effr run = (acR, Except.ok ()))
    (hatm : atmosphere acR.cruise_altp 0 = Except.ok (pamb, tamb, vsnd, g))
    (hrf : 0 < acR.cruise_mach * vsnd * acR.eff_ratio_ / g)
    (hp : 0 < acR.payload) (howe : 0 < acR.owe) (hkr : 0 ≤ acR.kr)
    (hfuel : 0 < acR.mtow - acR.owe - acR.payload * 1.20) :
    (0 < acR.range_pl_max ∧ acR.range_pl_max < acR.range_fuel_max
      ∧ acR.range_fuel_max < acR.range_no_pl)
    ∧ (acR.payload_fuel_max ≤ acR.payload_max ∧ 0 ≤ acR.payload_fuel_max) := by
  obtain ⟨p2, t2, v2, g2, hatm2, hm, hfm, hpl, hfr, hld, howe2, hpm, hpf, hr1, hr2, hr3⟩ :=
    design_ok_inversion ac coef kr mpax effr run acR hok
  rw [hatm2] at hatm
  simp only [Except.ok.injEq, Prod.mk.injEq] at hatm
  obtain ⟨-, -, hv, hg⟩ := hatm
  rw [hv, hg] at hatm2 hr1 hr2 hr3
  set W := acR.mtow with hW
  set E := acR.owe with hE
  set P := acR.payload with hP
  set k := acR.kr with hk
  set RF := acR.cruise_mach * vsnd * acR.eff_ratio_ / g with hRF
  set f1 := (W - E - P * 1.20) / (1 + k) with hf1
  set f2 := (W - E - P * 0.40) / (1 + k) with hf2
  have hk1 : (0 : ℝ) < 1 + k := by linarith
  have hf1pos : 0 < f1 := div_pos hfuel hk1
  have hf2gt : f1 < f2 := by
    rw [hf1, hf2, div_lt_div_right hk1]
    linarith
  have hf2pos : 0 < f2 := lt_trans hf1pos hf2gt
  have hWpos : 0 < W := by linarith
  have hWf1 : f1 < W := by
    rw [hf1, div_lt_iff hk1]
    nlinarith [mul_nonneg hWpos.le hkr]
  have hWf2 : f2 < W := by
    rw [hf2, div_lt_iff hk1]
    nlinarith [mul_nonneg hWpos.le hkr]
  have hcancel : f2 * (1 + k) = W - E - P * 0.40 := by
    rw [hf2]
    exact div_mul_cancel₀ _ (ne_of_gt hk1)
  have hT3W : E + f2 * (1 + k) < W := by
    rw [hcancel]
    linarith
  have hT3f2 : f2 < E + f2 * (1 + k) := by
    have hexp : f2 * (1 + k) = f2 + f2 * k := by ring
    have hnn := mul_nonneg hf2pos.le hkr
    rw [hexp]
    linarith
  constructor
  · refine ⟨?_, ?_, ?_⟩
    · rw [hr1]
      exact mul_pos hrf (Real.log_pos ((one_lt_div (by linarith)).mpr (by linarith)))
    · rw [hr1, hr2]
      refine mul_lt_mul_of_pos_left ?_ hrf
      refine Real.log_lt_log (div_pos hWpos (by linarith)) ?_
      exact div_lt_div_of_pos_left hWpos (by linarith) (by linarith)
    · rw [hr2, hr3]
      refine mul_lt_mul_of_pos_left ?_ hrf
      refine Real.log_lt_log (div_pos hWpos (by linarith)) ?_
      rw [div_lt_div_iff (by linarith) (by linarith)]
      nlinarith [mul_pos (sub_pos.mpr hT3W) hf2pos]

  · rw [hpm, hpf]
    constructor <;> linarith


/-- Witness for C4 at the concrete aircraft `ac0` and run `runC4`. -/
theorem C4_witness :
    (0 < acW4.payload ∧ 0 < acW4.owe ∧ 0 ≤ acW4.kr
      ∧ 0 < acW4.mtow - acW4.owe - acW4.payload * 1.20
      ∧ 0 < acW4.cruise_mach * Real.sqrt (1.4 * 287.053 * 288.15) * acW4.eff_ratio_ / 9.80665)
    ∧ ((0 < acW4.range_pl_max ∧ acW4.range_pl_max < acW4.range_fuel_max
        ∧ acW4.range_fuel_max < acW4.range_no_pl)
      ∧ (acW4.payload_fuel_max ≤ acW4.payload_max ∧ 0 ≤ acW4.payload_fuel_max)) := by
  refine ⟨⟨by norm_num [acW4], by norm_num [acW4], by norm_num [acW4, ac0],
    by norm_num [acW4], ?_⟩, ?_⟩
  · have h : acW4.cruise_mach = 0.78 ∧ acW4.eff_ratio_ = 1300000 := by
      constructor <;> norm_num [acW4, ac0]
    rw [h.1, h.2]
    have hs : 0 < Real.sqrt (1.4 * 287.053 * 288.15) := Real.sqrt_pos.mpr (by norm_num)
    positivity
  · exact C4_envelope_monotone ac0 acW4 none none none none runC4 101325 288.15
      (Real.sqrt (1.4 * 287.053 * 288.15)) 9.80665 design_run4_eq
      (by rw [show acW4.cruise_altp = 0 from rfl]; exact atmosphere_zero)
      (by
        have h : acW4.cruise_mach = 0.78 ∧ acW4.eff_ratio_ = 1300000 := by
          constructor <;> norm_num [acW4, ac0]
        rw [h.1, h.2]
        have hs : 0 < Real.sqrt (1.4 * 287.053 * 288.15) := Real.sqrt_pos.mpr (by norm_num)
        positivity)
      (by norm_num [acW4]) (by norm_num [acW4]) (by norm_num [acW4, ac0])
      (by norm_num [acW4])


/-- After a run of residual evaluations ending at `X` that raised no
exception, the object holds the candidate point `X` (because
`eval_design` stores every candidate into the object). -/
theorem runEvals_last_mtow (xs : List (ℝ × ℝ)) :
    ∀ (s : Aircraft) (X : ℝ × ℝ),
      (Aircraft.runEvals s (xs ++ [X])).2 = Except.ok () →
        ((Aircraft.runEvals s (xs ++ [X])).1).mtow = X.1
        ∧ ((Aircraft.runEvals s (xs ++ [X])).1).fuel_mission = X.2 := by
  induction xs with
  | nil =>
    intro s X hok
    rcases h : Aircraft.eval_design s X with ⟨ac2, r⟩
    have h1 : ac2 = (Aircraft.eval_design s X).1 := by rw [h]
    cases r with
    | error e =>
      rw [List.nil_append] at hok ⊢
      simp only [Aircraft.runEvals, h] at hok
      exact Except.noConfusion hok
    | ok res =>
      rw [List.nil_append] at hok ⊢
      simp only [Aircraft.runEvals, h]
      refine ⟨?_, ?_⟩
      · rw [h1]; exact (eval_design_fst_mtow s X).1
      · rw [h1]; exact (eval_design_fst_mtow s X).2
  | cons x xs ih =>
    intro s X hok
    rcases h : Aircraft.eval_design s x with ⟨ac2, r⟩
    cases r with
    | error e =>
      rw [List.cons_append] at hok
      simp only [Aircraft.runEvals, h] at hok
      exact Except.noConfusion hok
    | ok res =>
      rw [List.cons_append] at hok ⊢
      simp only [Aircraft.runEvals, h] at hok ⊢
      exact ih ac2 X hok

/-- C8 counterexample: on the failed run `runC8` (which evaluated the
residual once at `(1, 0)`), `design_aircraft` raises the convergence
exception, yet the aircraft state it leaves behind carries `mtow = 1`
even though the state before the call carried `mtow = 77000`. -/
theorem C8_counterexample :
    (Aircraft.design_aircraft ac0 none none none none runC8).2
        = Except.error PyError.convergenceProblem
    ∧ ((Aircraft.design_aircraft ac0 none none none none runC8).1).mtow = 1
    ∧ ac0.mtow = 77000 := by
  have hD : Aircraft.design_aircraft ac0 none none none none runC8
      = ({ ac0 with
            mtow := 1, fuel_mission := 0,
            fuel_reserve := ac0.kr * 0, ldw := 1 - 0,
            payload := ac0.npax * ac0.mpax,
            owe := 1 - ac0.npax * ac0.mpax - 0 - ac0.kr * 0 },
         Except.error PyError.convergenceProblem) := by
    unfold Aircraft.design_aircraft
    dsimp only [runC8]
    rw [designPre_ac0]
    simp only [Aircraft.runEvals]
    rw [eval_design_eq ac0 (1, 0) 101325 288.15
      (Real.sqrt (1.4 * 287.053 * 288.15)) 9.80665 atmosphere_ac0]
    dsimp only
    rw [if_pos (by norm_num)]
  rw [hD]
  norm_num [ac0]

/-- C8 amended: when the root-finder reports failure, `design_aircraft`
raises, but the aircraft is left in the state mutated by the last
residual evaluation (`eval_design` writes the candidate point into the
object on every call), not in its pre-call state. -/
theorem C8_failed_solve_state
    (ac : Aircraft) (coef : Option (ℝ × ℝ × ℝ)) (kr mpax effr : Option ℝ)
    (sol : ℝ × ℝ) (flag : ℤ) (xs : List (ℝ × ℝ)) (X : ℝ × ℝ)
    (hflag : flag ≠ 1)
    (hev : (Aircraft.runEvals (Aircraft.designPre ac coef kr mpax effr) (xs ++ [X])).2
        = Except.ok ()) :
    Aircraft.design_aircraft ac coef kr mpax effr
        { evals := xs ++ [X], sol := sol, flag := flag }
      = ((Aircraft.runEvals (Aircraft.designPre ac coef kr mpax effr) (xs ++ [X])).1,
         Except.error PyError.convergenceProblem)
    ∧ ((Aircraft.runEvals (Aircraft.designPre ac coef kr mpax effr) (xs ++ [X])).1).mtow
        = X.1
    ∧ ((Aircraft.runEvals (Aircraft.designPre ac coef kr mpax effr) (xs ++ [X])).1).fuel_mission
        = X.2 := by
  obtain ⟨hm, hf⟩ := runEvals_last_mtow xs (Aircraft.designPre ac coef kr mpax effr) X hev
  refine ⟨?_, hm, hf⟩
  unfold Aircraft.design_aircraft
  dsimp only
  rcases hrE : Aircraft.runEvals (Aircraft.designPre ac coef kr mpax effr) (xs ++ [X])
    with ⟨acE, rE⟩
  have h2 : rE = Except.ok () := by
    have := congrArg Prod.snd hrE
    simp only at this
    rw [← this, hev]
  rw [h2]
  dsimp only
  rw [if_pos hflag]

/-- Witness for C8 at the concrete aircraft `ac0` and the failed run
that evaluated the residual at `(1, 0)`. -/
theorem C8_witness :
    ((0 : ℤ) ≠ 1)
    ∧ (Aircraft.runEvals (Aircraft.designPre ac0 none none none none)
        ([] ++ [((1 : ℝ), (0 : ℝ))])).2 = Except.ok ()
    ∧ (Aircraft.design_aircraft ac0 none none none none
          { evals := [] ++ [((1 : ℝ), (0 : ℝ))], sol := (0, 0), flag := 0 }
        = ((Aircraft.runEvals (Aircraft.designPre ac0 none none none none)
              ([] ++ [((1 : ℝ), (0 : ℝ))])).1,
           Except.error PyError.convergenceProblem)
      ∧ ((Aircraft.runEvals (Aircraft.designPre ac0 none none none none)
            ([] ++ [((1 : ℝ), (0 : ℝ))])).1).mtow = ((1 : ℝ), (0 : ℝ)).1
      ∧ ((Aircraft.runEvals (Aircraft.designPre ac0 none none none none)
            ([] ++ [((1 : ℝ), (0 : ℝ))])).1).fuel_mission = ((1 : ℝ), (0 : ℝ)).2) := by
  have hev : (Aircraft.runEvals (Aircraft.designPre ac0 none none none none)
      ([] ++ [((1 : ℝ), (0 : ℝ))])).2 = Except.ok () := by
    rw [designPre_ac0, List.nil_append]
    simp only [Aircraft.runEvals]
    rw [eval_design_eq ac0 (1, 0) 101325 288.15
      (Real.sqrt (1.4 * 287.053 * 288.15)) 9.80665 atmosphere_ac0]
  exact ⟨by norm_num, hev,
    C8_failed_solve_state ac0 none none none none (0, 0) 0 [] (1, 0)
      (by norm_num) hev⟩


/-- C2 counterexample: the exception raised on a failed solve is one and
the same constant value everywhere — for two runs of `unitary_thrust`
whose last iterates differ (5 and 6), for `unitary_sc`, for
`design_aircraft` and for `operation` — so it carries neither the last
iterate nor the residual magnitude, and it is not distinct between call
sites. -/
theorem C2_counterexample :
    Semi_empiric_ef_nacelle.unitary_thrust nac0 101325 288.15 0 Rating.MCR 1 0
        { sol := 5, flag := 0 } = Except.error PyError.convergenceProblem
    ∧ Semi_empiric_ef_nacelle.unitary_thrust nac0 101325 288.15 0 Rating.MCR 1 0
        { sol := 6, flag := 0 } = Except.error PyError.convergenceProblem
    ∧ Semi_empiric_ef_nacelle.unitary_sc nac0 101325 288.15 0 Rating.MCR 25000 0
        { sol := (5, 5), flag := 0 } = Except.error PyError.convergenceProblem
    ∧ (Aircraft.design_aircraft ac0 none none none none
        { evals := [], sol := (0, 0), flag := 0 }).2
        = Except.error PyError.convergenceProblem
    ∧ Aircraft.operation ac0 150 5556000 { evals := [], sol := (0, 0), flag := 0 }
        = Except.error PyError.convergenceProblem := by
  refine ⟨?_, ?_, ?_, ?_, ?_⟩
  · unfold Semi_empiric_ef_nacelle.unitary_thrust
    dsimp only
    rw [if_pos (by norm_num)]
  · unfold Semi_empiric_ef_nacelle.unitary_thrust
    dsimp only
    rw [if_pos (by norm_num)]
  · unfold Semi_empiric_ef_nacelle.unitary_sc
    dsimp only
    rw [if_pos (by norm_num)]
  · unfold Aircraft.design_aircraft
    dsimp only
    simp only [Aircraft.runEvals]
    rw [if_pos (by norm_num)]
  · unfold Aircraft.operation
    dsimp only
    simp only [Aircraft.opEvals]
    rw [if_pos (by norm_num)]

/-- C2 amended: whenever the root-finder reports a non-1 info flag (and,
for the stateful solvers, the recorded residual evaluations themselves
raised nothing), each of the four solve entry points raises the one
catchable convergence exception — a bare constant carrying no iterate or
residual data — and returns no result derived from the unconverged
iterate. -/
theorem C2_convergence_raise
    (nac : Semi_empiric_ef_nacelle) (pamb tamb mach throttle pw_offtake thrust : ℝ)
    (rating : Rating) (run1 : FsolveSol1) (run2 : FsolveSol2)
    (ac ac2 : Aircraft) (coef : Option (ℝ × ℝ × ℝ)) (kr mpax effr : Option ℝ)
    (runD : FsolveRun2) (n_pax range' : ℝ) (runO : FsolveRun2)
    (h1 : run1.flag ≠ 1) (h2 : run2.flag ≠ 1) (hD : runD.flag ≠ 1) (hO : runO.flag ≠ 1)
    (hevD : (Aircraft.runEvals (Aircraft.designPre ac coef kr mpax effr) runD.evals).2
        = Except.ok ())
    (hevO : Aircraft.opEvals ac2 n_pax range' runO.evals = Except.ok ()) :
    Semi_empiric_ef_nacelle.unitary_thrust nac pamb tamb mach rating throttle pw_offtake run1
        = Except.error PyError.convergenceProblem
    ∧ Semi_empiric_ef_nacelle.unitary_sc nac pamb tamb mach rating thrust pw_offtake run2
        = Except.error PyError.convergenceProblem
    ∧ (Aircraft.design_aircraft ac coef kr mpax effr runD).2
        = Except.error PyError.convergenceProblem
    ∧ Aircraft.operation ac2 n_pax range' runO
        = Except.error PyError.convergenceProblem := by
  refine ⟨?_, ?_, ?_, ?_⟩
  · unfold Semi_empiric_ef_nacelle.unitary_thrust
    dsimp only
    rw [if_pos h1]
  · unfold Semi_empiric_ef_nacelle.unitary_sc
    dsimp only
    rw [if_pos h2]
  · unfold Aircraft.design_aircraft
    dsimp only
    rcases hrE : Aircraft.runEvals (Aircraft.designPre ac coef kr mpax effr) runD.evals
      with ⟨acE, rE⟩
    have h3 : rE = Except.ok () := by
      have := congrArg Prod.snd hrE
      simp only at this
      rw [← this, hevD]
    rw [h3]
    dsimp only
    rw [if_pos hD]
  · unfold Aircraft.operation
    rw [hevO]
    dsimp only
    rw [if_pos hO]

/-- Witness for C2 at concrete inputs (zero-length evaluation traces for
the stateful solvers, flag 0 everywhere). -/
theorem C2_witness :
    (((0 : ℤ) ≠ 1)
      ∧ (Aircraft.runEvals (Aircraft.designPre ac0 none none none none)
          (FsolveRun2.mk [] (0, 0) 0).evals).2 = Except.ok ()
      ∧ Aircraft.opEvals ac0 150 5556000 (FsolveRun2.mk [] (0, 0) 0).evals
          = Except.ok ())
    ∧ (Semi_empiric_ef_nacelle.unitary_thrust nac0 101325 288.15 0.5 Rating.MCR 1 0
          { sol := 7, flag := 0 } = Except.error PyError.convergenceProblem
      ∧ Semi_empiric_ef_nacelle.unitary_sc nac0 101325 288.15 0.5 Rating.MCR 25000 0
          { sol := (7, 7), flag := 0 } = Except.error PyError.convergenceProblem
      ∧ (Aircraft.design_aircraft ac0 none none none none
          (FsolveRun2.mk [] (0, 0) 0)).2 = Except.error PyError.convergenceProblem
      ∧ Aircraft.operation ac0 150 5556000 (FsolveRun2.mk [] (0, 0) 0)
          = Except.error PyError.convergenceProblem) := by
  refine ⟨⟨by norm_num, rfl, rfl⟩, ?_⟩
  exact C2_convergence_raise nac0 101325 288.15 0.5 1 0 25000 Rating.MCR
    { sol := 7, flag := 0 } { sol := (7, 7), flag := 0 }
    ac0 ac0 none none none none (FsolveRun2.mk [] (0, 0) 0) 150 5556000
    (FsolveRun2.mk [] (0, 0) 0)
    (by norm_num) (by norm_num) (by norm_num) (by norm_num) rfl rfl


/-- C3: `mission` has no feasibility guard: on inputs with
`fuel_mission ≥ tow` (non-positive landing weight) it does not raise but
returns the Breguet formula evaluated on the infeasible point — in the
Python source `np.log` of a non-positive ratio, i.e. a NaN/inf result
silently handed back to the caller. -/
theorem C3_mission_no_guard :
    (Aircraft.mission ac0 2 3 none).2 = Except.ok (rf0 * Real.log (2 / (2 - 3)))
    ∧ (Aircraft.mission ac0 2 2 none).2 = Except.ok (rf0 * Real.log (2 / (2 - 2))) := by
  constructor <;>
  · rw [mission_none_eq ac0 _ _ 101325 288.15
      (Real.sqrt (1.4 * 287.053 * 288.15)) 9.80665 atmosphere_ac0]
    norm_num [ac0, rf0, vsnd0]

/-- C7: the atmosphere model raises its domain exception strictly above
50 km and returns normally just below 50 km, but at exactly the
documented 50 km ceiling it crashes with an out-of-bounds read of its
altitude table (`Z[6]`) instead of returning. -/
theorem C7_atmosphere_boundary :
    atmosphere 50000 0 = Except.error PyError.indexError
    ∧ atmosphere 50001 0 = Except.error PyError.atmosphereAltitudeLimit
    ∧ ∃ p t v g, atmosphere 49999 0 = Except.ok (p, t, v, g) :=
  ⟨atmosphere_at_ceiling, atmosphere_above_ceiling, atmosphere_below_ceiling⟩

/-- C10 amended: `structure` and `mission` leave the object untouched
when their optional argument is omitted, and a supplied `coef`/`effr`
permanently overwrites the persistent `owe_coef`/`eff_ratio`, so every
later `structure`/`mission` call without the optional argument computes
with the new value; an overwritten `owe_coef` also survives into the
preamble of a subsequent `design_aircraft` solve without `coef`, but an
overwritten `eff_ratio` does not — the solve preamble
(design_model.py, line 166) resets it to `l_o_d(npax)/sfc`, discarding
the mission-supplied value. -/
theorem C10_optional_args_frame (ac : Aircraft) (m t f m2 t2 f2 : ℝ)
    (c : ℝ × ℝ × ℝ) (e : ℝ) :
    (Aircraft.structure_ ac m none).1 = ac
    ∧ (Aircraft.mission ac t f none).1 = ac
    ∧ (Aircraft.structure_ ac m (some c)).1 = { ac with owe_coef := c }
    ∧ (Aircraft.mission ac t f (some e)).1
        = { ac with eff_ratio_ := e / unit_convert_kg_daN_h 1 }
    ∧ (Aircraft.structure_ ((Aircraft.structure_ ac m (some c)).1) m2 none).2
        = (c.1 * m2 + c.2.1) * m2 + c.2.2
    ∧ Aircraft.mission ((Aircraft.mission ac t f (some e)).1) t2 f2 none
        = Aircraft.mission { ac with eff_ratio_ := e / unit_convert_kg_daN_h 1 } t2 f2 none
    ∧ (Aircraft.designPre ((Aircraft.structure_ ac m (some c)).1)
        none none none none).owe_coef = c
    ∧ (Aircraft.designPre ((Aircraft.mission ac t f (some e)).1)
        none none none none).eff_ratio_ = l_o_d ac.npax / ac.sfc := by
  have h4 : (Aircraft.mission ac t f (some e)).1
      = { ac with eff_ratio_ := e / unit_convert_kg_daN_h 1 } := by
    rw [Aircraft.mission]
    rcases h : atmosphere ac.cruise_altp 0 with er | ⟨p, t2x, v, g⟩ <;> simp [h]
  refine ⟨by simp [Aircraft.structure_], mission_none_fst ac t f,
    by simp [Aircraft.structure_], h4, by simp [Aircraft.structure_], by rw [h4],
    ?_, ?_⟩
  · simp [Aircraft.designPre, Aircraft.structure_]
  · rw [h4]
    simp [Aircraft.designPre]

/-- C10 counterexample: a subsequent solve does not use a
mission-supplied `effr`.  Starting from `ac0`, `mission(effr = 1)` sets
`eff_ratio` to 36000, but a following `design_aircraft` call without
`effr` solves with `eff_ratio = l_o_d(150)/sfc = 1300000` and leaves
that value behind, discarding the supplied one. -/
theorem C10_counterexample :
    ((Aircraft.mission ac0 100 10 (some 1)).1).eff_ratio_ = 36000
    ∧ Aircraft.design_aircraft ((Aircraft.mission ac0 100 10 (some 1)).1)
        none none none none runC4 = (acW4, Except.ok ())
    ∧ acW4.eff_ratio_ = 1300000
    ∧ (36000 : ℝ) ≠ 1300000 := by
  have h4 : (Aircraft.mission ac0 100 10 (some 1)).1
      = { ac0 with eff_ratio_ := 1 / unit_convert_kg_daN_h 1 } := by
    rw [Aircraft.mission]
    rcases h : atmosphere ac0.cruise_altp 0 with er | ⟨p, t2x, v, g⟩ <;> simp [h]
  refine ⟨?_, ?_, ?_, by norm_num⟩
  · rw [h4]
    norm_num [unit_convert_kg_daN_h]
  · rw [h4]
    have hcongr : Aircraft.design_aircraft
        ({ ac0 with eff_ratio_ := 1 / unit_convert_kg_daN_h 1 }) none none none none runC4
        = Aircraft.design_aircraft ac0 none none none none runC4 := rfl
    rw [hcongr]
    exact design_run4_eq
  · norm_num [acW4, ac0]


/-- C5: at a converged `unitary_thrust` result, the solved flow `q`
satisfies the corrected-flow continuity residual within tolerance (with
the nozzle state derived from `q` by the energy equation), and the
returned net thrust is exactly `q*(Vjet - Vinlet)` with `Vjet`
recomputed from the returned flow and shaft power. -/
theorem C5_unitary_thrust_energy
    (nac : Semi_empiric_ef_nacelle) (pamb tamb mach throttle pw_offtake tol : ℝ)
    (rating : Rating) (run : FsolveSol1) (res : EfResult)
    (hok : Semi_empiric_ef_nacelle.unitary_thrust nac pamb tamb mach rating
        throttle pw_offtake run = Except.ok res)
    (hres : |Semi_empiric_ef_nacelle.ef_fct nac run.sol
        (nac.shaft_power rating throttle pw_offtake) pamb
        (total_temperature tamb mach) (mach * sound_speed tamb)| ≤ tol) :
    ∃ Vinlet PwShaft Vjet TtotJet TstatJet MachJet : ℝ,
      Vinlet = mach * sound_speed tamb
      ∧ PwShaft = nac.shaft_power rating throttle pw_offtake
      ∧ Vjet = Real.sqrt (2 * (nac.efficiency_fan * PwShaft) / run.sol + Vinlet ^ 2)
      ∧ TtotJet = total_temperature tamb mach + PwShaft / (run.sol * gas_Cp)
      ∧ TstatJet = TtotJet - 0.5 * Vjet ^ 2 / gas_Cp
      ∧ MachJet = Vjet / sound_speed TstatJet
      ∧ |corrected_air_flow (total_pressure pamb MachJet) TtotJet MachJet
            * nac.nozzle_area - run.sol| ≤ tol
      ∧ res.fn = run.sol * (Vjet - Vinlet)
      ∧ res.pw = nac.efficiency_fan * PwShaft := by
  have hrec : ({
      fn := run.sol * (Real.sqrt (2 * (nac.efficiency_fan
        * nac.shaft_power rating throttle pw_offtake) / run.sol
        + (mach * sound_speed tamb) ^ 2) - mach * sound_speed tamb),
      pw := nac.efficiency_fan * nac.shaft_power rating throttle pw_offtake } : EfResult)
      = res := by
    unfold Semi_empiric_ef_nacelle.unitary_thrust at hok
    dsimp only at hok
    by_cases hf : run.flag ≠ 1
    · rw [if_pos hf] at hok
      exact absurd hok (by simp)
    · rw [if_neg hf] at hok
      simpa using hok
  refine ⟨mach * sound_speed tamb, nac.shaft_power rating throttle pw_offtake,
    _, _, _, _, rfl, rfl, rfl, rfl, rfl, rfl, ?_, ?_, ?_⟩
  · simpa only [Semi_empiric_ef_nacelle.ef_fct] using hres
  · rw [← hrec]
  · rw [← hrec]

/-- Witness for C5 at the degenerate nacelle `nac0` (zero nozzle area)
at static conditions and zero solved flow, tolerance 1. -/
theorem C5_witness :
    (|Semi_empiric_ef_nacelle.ef_fct nac0 (FsolveSol1.mk 0 1).sol
        (nac0.shaft_power Rating.MCR 1 0) 101325
        (total_temperature 288.15 0) (0 * sound_speed 288.15)| ≤ 1)
    ∧ (∃ Vinlet PwShaft Vjet TtotJet TstatJet MachJet : ℝ,
        Vinlet = 0 * sound_speed 288.15
        ∧ PwShaft = nac0.shaft_power Rating.MCR 1 0
        ∧ Vjet = Real.sqrt (2 * (nac0.efficiency_fan * PwShaft)
            / (FsolveSol1.mk 0 1).sol + Vinlet ^ 2)
        ∧ TtotJet = total_temperature 288.15 0
            + PwShaft / ((FsolveSol1.mk 0 1).sol * gas_Cp)
        ∧ TstatJet = TtotJet - 0.5 * Vjet ^ 2 / gas_Cp
        ∧ MachJet = Vjet / sound_speed TstatJet
        ∧ |corrected_air_flow (total_pressure 101325 MachJet) TtotJet MachJet
              * nac0.nozzle_area - (FsolveSol1.mk 0 1).sol| ≤ 1
        ∧ ({ fn := (FsolveSol1.mk 0 1).sol
              * (Real.sqrt (2 * (nac0.efficiency_fan * nac0.shaft_power Rating.MCR 1 0)
                  / (FsolveSol1.mk 0 1).sol + (0 * sound_speed 288.15) ^ 2)
                - 0 * sound_speed 288.15),
             pw := nac0.efficiency_fan * nac0.shaft_power Rating.MCR 1 0 } : EfResult).fn
            = (FsolveSol1.mk 0 1).sol * (Vjet - Vinlet)
        ∧ ({ fn := (FsolveSol1.mk 0 1).sol
              * (Real.sqrt (2 * (nac0.efficiency_fan * nac0.shaft_power Rating.MCR 1 0)
                  / (FsolveSol1.mk 0 1).sol + (0 * sound_speed 288.15) ^ 2)
                - 0 * sound_speed 288.15),
             pw := nac0.efficiency_fan * nac0.shaft_power Rating.MCR 1 0 } : EfResult).pw
            = nac0.efficiency_fan * PwShaft) := by
  have hres : |Semi_empiric_ef_nacelle.ef_fct nac0 (FsolveSol1.mk 0 1).sol
      (nac0.shaft_power Rating.MCR 1 0) 101325
      (total_temperature 288.15 0) (0 * sound_speed 288.15)| ≤ 1 := by
    simp only [Semi_empiric_ef_nacelle.ef_fct]
    norm_num [nac0]
  exact ⟨hres, C5_unitary_thrust_energy nac0 101325 288.15 0 1 0 1 Rating.MCR
    (FsolveSol1.mk 0 1) _ rfl hres⟩

/-- C6: in `unitary_sc` the unknowns are `(q, PwShaft)` jointly and the
residual pair couples corrected-flow continuity with thrust matching; at
a converged result the recomputed thrust `q*(Vjet - Vinlet)` equals the
requested thrust within tolerance, the returned shaft power is the
solved one, and the returned specific consumption is the returned shaft
power divided by the recomputed thrust. -/
theorem C6_unitary_sc_thrust_match
    (nac : Semi_empiric_ef_nacelle) (pamb tamb mach thrust pw_offtake tol : ℝ)
    (rating : Rating) (run : FsolveSol2) (res : ScResult)
    (hok : Semi_empiric_ef_nacelle.unitary_sc nac pamb tamb mach rating
        thrust pw_offtake run = Except.ok res)
    (hres1 : |(Semi_empiric_ef_nacelle.sc_fct nac run.sol thrust pamb
        (total_temperature tamb mach) (mach * sound_speed tamb)).1| ≤ tol)
    (hres2 : |(Semi_empiric_ef_nacelle.sc_fct nac run.sol thrust pamb
        (total_temperature tamb mach) (mach * sound_speed tamb)).2| ≤ tol) :
    ∃ Vinlet Vjet : ℝ,
      Vinlet = mach * sound_speed tamb
      ∧ Vjet = Real.sqrt (2 * (nac.efficiency_fan * run.sol.2) / run.sol.1 + Vinlet ^ 2)
      ∧ |run.sol.1 * (Vjet - Vinlet) - thrust| ≤ tol
      ∧ |corrected_air_flow
            (total_pressure pamb (Vjet / sound_speed (total_temperature tamb mach
                + run.sol.2 / (run.sol.1 * gas_Cp) - 0.5 * Vjet ^ 2 / gas_Cp)))
            (total_temperature tamb mach + run.sol.2 / (run.sol.1 * gas_Cp))
            (Vjet / sound_speed (total_temperature tamb mach
                + run.sol.2 / (run.sol.1 * gas_Cp) - 0.5 * Vjet ^ 2 / gas_Cp))
            * nac.nozzle_area - run.sol.1| ≤ tol
      ∧ res.pw = run.sol.2
      ∧ res.sec = run.sol.2 / (run.sol.1 * (Vjet - Vinlet)) := by
  have hrec : ({
      sec := run.sol.2 / (run.sol.1
        * (Real.sqrt (2 * (nac.efficiency_fan * run.sol.2) / run.sol.1
            + (mach * sound_speed tamb) ^ 2) - mach * sound_speed tamb)),
      pw := run.sol.2,
      thtl := (run.sol.2 + pw_offtake)
        / (nac.reference_power * nac.rating_factor rating) } : ScResult)
      = res := by
    unfold Semi_empiric_ef_nacelle.unitary_sc at hok
    dsimp only at hok
    by_cases hf : run.flag ≠ 1
    · rw [if_pos hf] at hok
      exact absurd hok (by simp)
    · rw [if_neg hf] at hok
      simpa using hok
  refine ⟨mach * sound_speed tamb, _, rfl, rfl, ?_, ?_, ?_, ?_⟩
  · rw [abs_sub_comm]
    simpa only [Semi_empiric_ef_nacelle.sc_fct] using hres2
  · simpa only [Semi_empiric_ef_nacelle.sc_fct] using hres1
  · rw [← hrec]
  · rw [← hrec]

/-- Witness for C6 at the degenerate nacelle `nac0`, requested thrust 0,
solved point `(0, 7)`, tolerance 1. -/
theorem C6_witness :
    (|(Semi_empiric_ef_nacelle.sc_fct nac0 (FsolveSol2.mk (0, 7) 1).sol 0 101325
        (total_temperature 288.15 0) (0 * sound_speed 288.15)).1| ≤ 1
      ∧ |(Semi_empiric_ef_nacelle.sc_fct nac0 (FsolveSol2.mk (0, 7) 1).sol 0 101325
        (total_temperature 288.15 0) (0 * sound_speed 288.15)).2| ≤ 1)
    ∧ (∃ Vinlet Vjet : ℝ,
        Vinlet = 0 * sound_speed 288.15
        ∧ Vjet = Real.sqrt (2 * (nac0.efficiency_fan * (FsolveSol2.mk (0, 7) 1).sol.2)
            / (FsolveSol2.mk (0, 7) 1).sol.1 + Vinlet ^ 2)
        ∧ |(FsolveSol2.mk (0, 7) 1).sol.1 * (Vjet - Vinlet) - 0| ≤ 1
        ∧ |corrected_air_flow
              (total_pressure 101325 (Vjet / sound_speed (total_temperature 288.15 0
                  + (FsolveSol2.mk (0, 7) 1).sol.2
                    / ((FsolveSol2.mk (0, 7) 1).sol.1 * gas_Cp)
                  - 0.5 * Vjet ^ 2 / gas_Cp)))
              (total_temperature 288.15 0 + (FsolveSol2.mk (0, 7) 1).sol.2
                / ((FsolveSol2.mk (0, 7) 1).sol.1 * gas_Cp))
              (Vjet / sound_speed (total_temperature 288.15 0
                  + (FsolveSol2.mk (0, 7) 1).sol.2
                    / ((FsolveSol2.mk (0, 7) 1).sol.1 * gas_Cp)
                  - 0.5 * Vjet ^ 2 / gas_Cp))
              * nac0.nozzle_area - (FsolveSol2.mk (0, 7) 1).sol.1| ≤ 1
        ∧ ({ sec := (FsolveSol2.mk (0, 7) 1).sol.2 / ((FsolveSol2.mk (0, 7) 1).sol.1
              * (Real.sqrt (2 * (nac0.efficiency_fan * (FsolveSol2.mk (0, 7) 1).sol.2)
                  / (FsolveSol2.mk (0, 7) 1).sol.1 + (0 * sound_speed 288.15) ^ 2)
                - 0 * sound_speed 288.15)),
             pw := (FsolveSol2.mk (0, 7) 1).sol.2,
             thtl := ((FsolveSol2.mk (0, 7) 1).sol.2 + 0)
               / (nac0.reference_power * nac0.rating_factor Rating.MCR) } : ScResult).pw
            = (FsolveSol2.mk (0, 7) 1).sol.2
        ∧ ({ sec := (FsolveSol2.mk (0, 7) 1).sol.2 / ((FsolveSol2.mk (0, 7) 1).sol.1
              * (Real.sqrt (2 * (nac0.efficiency_fan * (FsolveSol2.mk (0, 7) 1).sol.2)
                  / (FsolveSol2.mk (0, 7) 1).sol.1 + (0 * sound_speed 288.15) ^ 2)
                - 0 * sound_speed 288.15)),
             pw := (FsolveSol2.mk (0, 7) 1).sol.2,
             thtl := ((FsolveSol2.mk (0, 7) 1).sol.2 + 0)
               / (nac0.reference_power * nac0.rating_factor Rating.MCR) } : ScResult).sec
            = (FsolveSol2.mk (0, 7) 1).sol.2
              / ((FsolveSol2.mk (0, 7) 1).sol.1 * (Vjet - Vinlet))) := by
  have hres1 : |(Semi_empiric_ef_nacelle.sc_fct nac0 (FsolveSol2.mk (0, 7) 1).sol 0 101325
      (total_temperature 288.15 0) (0 * sound_speed 288.15)).1| ≤ 1 := by
    simp only [Semi_empiric_ef_nacelle.sc_fct]
    norm_num [nac0]
  have hres2 : |(Semi_empiric_ef_nacelle.sc_fct nac0 (FsolveSol2.mk (0, 7) 1).sol 0 101325
      (total_temperature 288.15 0) (0 * sound_speed 288.15)).2| ≤ 1 := by
    simp only [Semi_empiric_ef_nacelle.sc_fct]
    norm_num [nac0]
  exact ⟨⟨hres1, hres2⟩, C6_unitary_sc_thrust_match nac0 101325 288.15 0 0 0 1
    Rating.MCR (FsolveSol2.mk (0, 7) 1) _ rfl hres1 hres2⟩


set_option maxHeartbeats 1000000 in
/-- C9: for an aircraft whose envelope corners satisfy the envelope
invariant, `max_capacity` is a total closed-form lookup that is
monotonically non-increasing in range, returns
`floor(payload_max/mpax)` up to the max-payload range, the floored
piecewise-linear interpolation of the corner payloads between the
corners, and 0 beyond the zero-payload range. -/
theorem C9_max_capacity
    (ac : Aircraft)
    (h1 : ac.range_pl_max < ac.range_fuel_max)
    (h2 : ac.range_fuel_max < ac.range_no_pl)
    (h3 : ac.payload_fuel_max ≤ ac.payload_max)
    (h4 : 0 ≤ ac.payload_fuel_max)
    (h5 : 0 < ac.mpax) :
    (∀ r1 r2 : ℝ, r1 ≤ r2 →
        Aircraft.max_capacity ac r2 ≤ Aircraft.max_capacity ac r1)
    ∧ (∀ r : ℝ, r ≤ ac.range_pl_max →
        Aircraft.max_capacity ac r = (⌊ac.payload_max / ac.mpax⌋ : ℝ))
    ∧ (∀ r : ℝ, ac.range_pl_max < r → r ≤ ac.range_fuel_max →
        Aircraft.max_capacity ac r
          = (⌊(ac.payload_fuel_max + (ac.payload_max - ac.payload_fuel_max)
              * (r - ac.range_fuel_max) / (ac.range_pl_max - ac.range_fuel_max))
              / ac.mpax⌋ : ℝ))
    ∧ (∀ r : ℝ, ac.range_fuel_max < r → r ≤ ac.range_no_pl →
        Aircraft.max_capacity ac r
          = (⌊ac.payload_fuel_max * (r - ac.range_no_pl)
              / (ac.range_fuel_max - ac.range_no_pl) / ac.mpax⌋ : ℝ))
    ∧ (∀ r : ℝ, ac.range_no_pl < r → Aircraft.max_capacity ac r = 0) := by
  have hv1 : ∀ r : ℝ, r ≤ ac.range_pl_max →
      Aircraft.max_capacity ac r = (⌊ac.payload_max / ac.mpax⌋ : ℝ) := by
    intro r hr
    rw [Aircraft.max_capacity, if_pos hr]
  have hv2 : ∀ r : ℝ, ac.range_pl_max < r → r ≤ ac.range_fuel_max →
      Aircraft.max_capacity ac r
        = (⌊(ac.payload_fuel_max + (ac.payload_max - ac.payload_fuel_max)
            * (r - ac.range_fuel_max) / (ac.range_pl_max - ac.range_fuel_max))
            / ac.mpax⌋ : ℝ) := by
    intro r ha hb
    rw [Aircraft.max_capacity, if_neg (by linarith), if_pos ⟨ha, hb⟩]
  have hv3 : ∀ r : ℝ, ac.range_fuel_max < r → r ≤ ac.range_no_pl →
      Aircraft.max_capacity ac r
        = (⌊ac.payload_fuel_max * (r - ac.range_no_pl)
            / (ac.range_fuel_max - ac.range_no_pl) / ac.mpax⌋ : ℝ) := by
    intro r ha hb
    rw [Aircraft.max_capacity, if_neg (by linarith),
      if_neg (fun hcon => (not_le.mpr ha) hcon.2), if_pos ⟨ha, hb⟩]
  have hv4 : ∀ r : ℝ, ac.range_no_pl < r → Aircraft.max_capacity ac r = 0 := by
    intro r ha
    rw [Aircraft.max_capacity, if_neg (by linarith),
      if_neg (fun hcon => (not_le.mpr (by linarith)) hcon.2),
      if_neg (fun hcon => (not_le.mpr ha) hcon.2)]
  have hstep : ∀ a b : ℝ, a ≤ b →
      ((⌊a / ac.mpax⌋ : ℤ) : ℝ) ≤ ((⌊b / ac.mpax⌋ : ℤ) : ℝ) := by
    intro a b hab
    have h := Int.floor_le_floor ((div_le_div_right h5).mpr hab)
    exact_mod_cast h
  have hnn : ∀ x : ℝ, 0 ≤ x → (0 : ℝ) ≤ ((⌊x / ac.mpax⌋ : ℤ) : ℝ) := by
    intro x hx
    have h : (0 : ℤ) ≤ ⌊x / ac.mpax⌋ :=
      Int.le_floor.mpr (by exact_mod_cast div_nonneg hx h5.le)
    exact_mod_cast h
  have hneg1 : ac.range_pl_max - ac.range_fuel_max < 0 := by linarith
  have hneg2 : ac.range_fuel_max - ac.range_no_pl < 0 := by linarith
  have hb2_le_pm : ∀ r : ℝ, ac.range_pl_max < r → r ≤ ac.range_fuel_max →
      ac.payload_fuel_max + (ac.payload_max - ac.payload_fuel_max)
        * (r - ac.range_fuel_max) / (ac.range_pl_max - ac.range_fuel_max)
        ≤ ac.payload_max := by
    intro r ha hb
    have hq1 : (r - ac.range_fuel_max) / (ac.range_pl_max - ac.range_fuel_max) ≤ 1 := by
      rw [div_le_iff_of_neg hneg1]
      linarith
    have hmul : (ac.payload_max - ac.payload_fuel_max)
        * ((r - ac.range_fuel_max) / (ac.range_pl_max - ac.range_fuel_max))
        ≤ (ac.payload_max - ac.payload_fuel_max) * 1 :=
      mul_le_mul_of_nonneg_left hq1 (by linarith)
    rw [mul_div_assoc]
    linarith
  have hb2_ge_pf : ∀ r : ℝ, ac.range_pl_max < r → r ≤ ac.range_fuel_max →
      ac.payload_fuel_max
        ≤ ac.payload_fuel_max + (ac.payload_max - ac.payload_fuel_max)
          * (r - ac.range_fuel_max) / (ac.range_pl_max - ac.range_fuel_max) := by
    intro r ha hb
    have hq0 : 0 ≤ (r - ac.range_fuel_max) / (ac.range_pl_max - ac.range_fuel_max) :=
      div_nonneg_of_nonpos (by linarith) (by linarith)
    have hmul : 0 ≤ (ac.payload_max - ac.payload_fuel_max)
        * ((r - ac.range_fuel_max) / (ac.range_pl_max - ac.range_fuel_max)) :=
      mul_nonneg (by linarith) hq0
    rw [mul_div_assoc]
    linarith
  have hb2_mono : ∀ ra rb : ℝ, ac.range_pl_max < ra → ra ≤ rb →
      rb ≤ ac.range_fuel_max →
      ac.payload_fuel_max + (ac.payload_max - ac.payload_fuel_max)
        * (rb - ac.range_fuel_max) / (ac.range_pl_max - ac.range_fuel_max)
      ≤ ac.payload_fuel_max + (ac.payload_max - ac.payload_fuel_max)
        * (ra - ac.range_fuel_max) / (ac.range_pl_max - ac.range_fuel_max) := by
    intro ra rb ha hab hb
    have hq : (rb - ac.range_fuel_max) / (ac.range_pl_max - ac.range_fuel_max)
        ≤ (ra - ac.range_fuel_max) / (ac.range_pl_max - ac.range_fuel_max) := by
      rw [div_le_div_right_of_neg hneg1]
      nlinarith
    have hmul := mul_le_mul_of_nonneg_left hq
      (show (0 : ℝ) ≤ ac.payload_max - ac.payload_fuel_max by linarith)
    rw [mul_div_assoc, mul_div_assoc]
    linarith
  have hb3_le_pf : ∀ r : ℝ, ac.range_fuel_max < r → r ≤ ac.range_no_pl →
      ac.payload_fuel_max * (r - ac.range_no_pl)
        / (ac.range_fuel_max - ac.range_no_pl) ≤ ac.payload_fuel_max := by
    intro r ha hb
    have hq1 : (r - ac.range_no_pl) / (ac.range_fuel_max - ac.range_no_pl) ≤ 1 := by
      rw [div_le_iff_of_neg hneg2]
      linarith
    have hmul : ac.payload_fuel_max
        * ((r - ac.range_no_pl) / (ac.range_fuel_max - ac.range_no_pl))
        ≤ ac.payload_fuel_max * 1 := mul_le_mul_of_nonneg_left hq1 h4
    rw [mul_div_assoc]
    linarith
  have hb3_nonneg : ∀ r : ℝ, r ≤ ac.range_no_pl →
      0 ≤ ac.payload_fuel_max * (r - ac.range_no_pl)
        / (ac.range_fuel_max - ac.range_no_pl) := by
    intro r hb
    have hq0 : 0 ≤ (r - ac.range_no_pl) / (ac.range_fuel_max - ac.range_no_pl) :=
      div_nonneg_of_nonpos (by linarith) (by linarith)
    rw [mul_div_assoc]
    exact mul_nonneg h4 hq0
  have hb3_mono : ∀ ra rb : ℝ, ra ≤ rb → rb ≤ ac.range_no_pl →
      ac.payload_fuel_max * (rb - ac.range_no_pl) / (ac.range_fuel_max - ac.range_no_pl)
      ≤ ac.payload_fuel_max * (ra - ac.range_no_pl)
        / (ac.range_fuel_max - ac.range_no_pl) := by
    intro ra rb hab hb
    have hq : (rb - ac.range_no_pl) / (ac.range_fuel_max - ac.range_no_pl)
        ≤ (ra - ac.range_no_pl) / (ac.range_fuel_max - ac.range_no_pl) := by
      rw [div_le_div_right_of_neg hneg2]
      nlinarith
    have hmul := mul_le_mul_of_nonneg_left hq h4
    rw [mul_div_assoc, mul_div_assoc]
    linarith
  refine ⟨?_, hv1, hv2, hv3, hv4⟩
  intro r1 r2 h12
  rcases le_or_lt r2 ac.range_pl_max with hA | hA
  · rw [hv1 r2 hA, hv1 r1 (le_trans h12 hA)]
  · rcases le_or_lt r2 ac.range_fuel_max with hB | hB
    · rw [hv2 r2 hA hB]
      rcases le_or_lt r1 ac.range_pl_max with hC | hC
      · rw [hv1 r1 hC]
        exact hstep _ _ (hb2_le_pm r2 hA hB)
      · rw [hv2 r1 hC (le_trans h12 hB)]
        exact hstep _ _ (hb2_mono r1 r2 hC h12 hB)
    · rcases le_or_lt r2 ac.range_no_pl with hD | hD
      · rw [hv3 r2 hB hD]
        rcases le_or_lt r1 ac.range_pl_max with hC | hC
        · rw [hv1 r1 hC]
          exact hstep _ _ (le_trans (hb3_le_pf r2 hB hD) h3)
        · rcases le_or_lt r1 ac.range_fuel_max with hE | hE
          · rw [hv2 r1 hC hE]
            exact hstep _ _ (le_trans (hb3_le_pf r2 hB hD) (hb2_ge_pf r1 hC hE))
          · rw [hv3 r1 hE (le_trans h12 hD)]
            exact hstep _ _ (hb3_mono r1 r2 h12 hD)
      · rw [hv4 r2 hD]
        rcases le_or_lt r1 ac.range_pl_max with hC | hC
        · rw [hv1 r1 hC]
          exact hnn _ (le_trans h4 h3)
        · rcases le_or_lt r1 ac.range_fuel_max with hE | hE
          · rw [hv2 r1 hC hE]
            exact hnn _ (le_trans h4 (hb2_ge_pf r1 hC hE))
          · rcases le_or_lt r1 ac.range_no_pl with hF | hF
            · rw [hv3 r1 hE hF]
              exact hnn _ (hb3_nonneg r1 hF)
            · rw [hv4 r1 hF]

/-- Witness for C9 at the concrete aircraft `acPLR`. -/
theorem C9_witness :
    (acPLR.range_pl_max < acPLR.range_fuel_max
      ∧ acPLR.range_fuel_max < acPLR.range_no_pl
      ∧ acPLR.payload_fuel_max ≤ acPLR.payload_max
      ∧ 0 ≤ acPLR.payload_fuel_max ∧ 0 < acPLR.mpax)
    ∧ ((∀ r1 r2 : ℝ, r1 ≤ r2 →
          Aircraft.max_capacity acPLR r2 ≤ Aircraft.max_capacity acPLR r1)
      ∧ (∀ r : ℝ, r ≤ acPLR.range_pl_max →
          Aircraft.max_capacity acPLR r = (⌊acPLR.payload_max / acPLR.mpax⌋ : ℝ))
      ∧ (∀ r : ℝ, acPLR.range_pl_max < r → r ≤ acPLR.range_fuel_max →
          Aircraft.max_capacity acPLR r
            = (⌊(acPLR.payload_fuel_max + (acPLR.payload_max - acPLR.payload_fuel_max)
                * (r - acPLR.range_fuel_max)
                / (acPLR.range_pl_max - acPLR.range_fuel_max))
                / acPLR.mpax⌋ : ℝ))
      ∧ (∀ r : ℝ, acPLR.range_fuel_max < r → r ≤ acPLR.range_no_pl →
          Aircraft.max_capacity acPLR r
            = (⌊acPLR.payload_fuel_max * (r - acPLR.range_no_pl)
                / (acPLR.range_fuel_max - acPLR.range_no_pl) / acPLR.mpax⌋ : ℝ))
      ∧ (∀ r : ℝ, acPLR.range_no_pl < r → Aircraft.max_capacity acPLR r = 0)) := by
  refine ⟨⟨?_, ?_, ?_, ?_, ?_⟩, ?_⟩
  · norm_num [acPLR]
  · norm_num [acPLR]
  · norm_num [acPLR, ac0]
  · norm_num [acPLR, ac0]
  · norm_num [acPLR, ac0]
  · exact C9_max_capacity acPLR (by norm_num [acPLR]) (by norm_num [acPLR])
      (by norm_num [acPLR, ac0]) (by norm_num [acPLR, ac0]) (by norm_num [acPLR, ac0])


/-- C4 counterexample: a successful `design_aircraft` alone does not
give a monotone envelope.  On the converged run `runC1` (zero mission
fuel, as a short-range design would produce), the max-payload fuel
allocation `(mtow - owe - 1.2*payload)/(1+kr)` is negative and the
max-payload corner has negative range, refuting `0 < range_pl_max`. -/
theorem C4_counterexample :
    Aircraft.design_aircraft ac0 none none none none runC1 = (acW1, Except.ok ())
    ∧ acW1.range_pl_max < 0 := by
  refine ⟨design_run1_eq, ?_⟩
  have hx : (77000 : ℝ) / (77000 + 26000 / 7) < 1 := by
    rw [div_lt_one (by norm_num)]
    norm_num
  have hlog : Real.log (77000 / (77000 + 26000 / 7)) < 0 :=
    Real.log_neg (by norm_num) hx
  have hrf : 0 < rf0 := by
    rw [rf0, vsnd0]
    have hs : 0 < Real.sqrt (1.4 * 287.053 * 288.15) := Real.sqrt_pos.mpr (by norm_num)
    positivity
  have hfield : acW1.range_pl_max = rf0 * Real.log (77000 / (77000 + 26000 / 7)) := rfl
  rw [hfield]
  exact mul_neg_of_pos_of_neg hrf hlog

end
